import Mathlib

/-!
Shallow embedding of `pkg/storage/replica_proposal.go` (command-application
core of a replicated storage shard): the side-effect record data model, the
merge engine (`MergeAndDestroy`), the checksum coordinator, the lease
transition handler, the two effect applicators and the apply coordinator,
together with theorems settling the specification claims about them.

Go pointer/slice/channel fields are embedded as `Option`/`Bool`/`List`
values (Go `nil` is `none`/`false`/`[]`); machine integers are `Nat`/`Int`
(no overflow is relevant to any of the code paths embedded here); functions
that mutate receivers in place are embedded as functions returning the
updated values, and externally visible actions (queue adds, gossip, engine
writes, async task launches) are recorded in an explicit effect list in
program order.
-/

namespace Storage

/-- Modelled from the spec: MVCC statistics (`enginepb.MVCCStats`, defined
outside `src/`). The many numeric fields are abstracted into one additive
aggregate plus the `ContainsEstimates` flag, which is the only field the
embedded code inspects individually (`delta`: "statistics adjustment
(accumulable, additive)"). -/
structure MVCCStats where
  bytes : Int
  containsEstimates : Bool
deriving DecidableEq

/-- The Go zero value `enginepb.MVCCStats{}`. -/
def MVCCStats.zero : MVCCStats := ⟨0, false⟩

/-- `MVCCStats.Add`: fold another stats delta into this one. -/
def MVCCStats.add (a b : MVCCStats) : MVCCStats :=
  ⟨a.bytes + b.bytes, a.containsEstimates || b.containsEstimates⟩

/-- Modelled from the spec: `hlc.Timestamp` (defined outside `src/`),
abstracted to a single linearly ordered value; `hlc.ZeroTimestamp` is `0`
and `Forward` is forward-only max ("monotonic watermarks (accumulable via
forward-only max)"). -/
abbrev Timestamp := Nat

/-- `hlc.ZeroTimestamp`. -/
def zeroTimestamp : Timestamp := 0

/-- `Timestamp.Forward`: advance `a` to `b` when `b` is ahead. -/
def Timestamp.forward (a b : Timestamp) : Timestamp := max a b

/-- `roachpb.ReplicaDescriptor` (defined outside `src/`): the identity of
one replica, as used by the embedded code (node, store and replica ids). -/
structure ReplicaDescriptor where
  nodeID : Nat
  storeID : Nat
  replicaID : Nat
deriving DecidableEq

/-- Go zero value `roachpb.ReplicaDescriptor{}`. -/
def ReplicaDescriptor.zero : ReplicaDescriptor := ⟨0, 0, 0⟩

/-- `roachpb.RangeDescriptor` (defined outside `src/`), abstracted to the
fields the embedded code reads: the range id and its end key. -/
structure RangeDescriptor where
  rangeID : Nat
  endKey : Nat
deriving DecidableEq

/-- `roachpb.Lease` (defined outside `src/`): holder replica, start and
expiration timestamps. -/
structure Lease where
  replica : ReplicaDescriptor
  start : Timestamp
  expiration : Timestamp
deriving DecidableEq

/-- Modelled from the spec: `Lease.Covers` ("the lease is currently active
('covers now')"), embedded as: the queried timestamp is before the lease's
expiration. -/
def Lease.covers (l : Lease) (t : Timestamp) : Bool := t < l.expiration

/-- `roachpb.RaftTruncatedState` (defined outside `src/`): log truncation
marker, abstracted to the truncation index. -/
structure TruncatedState where
  index : Nat
deriving DecidableEq

/-- `storagebase.ReplicaState_FrozenEnum` (defined outside `src/`):
tri-state frozen flag, zero value `FROZEN_UNSPECIFIED`. -/
inductive FrozenStatus where
  | frozenUnspecified
  | frozen
  | unfrozen
deriving DecidableEq

/-- Split trigger payload (`rResult.Split`, defined outside `src/`): the
right-hand-side stats delta plus the opaque `roachpb.SplitTrigger`. -/
structure SplitInfo where
  rhsDelta : MVCCStats
  splitTrigger : Nat
deriving DecidableEq

/-- Merge trigger payload (`rResult.Merge`, defined outside `src/`): the
embedded code reads `LeftDesc.EndKey` and `RightDesc.RangeID`. -/
structure MergeInfo where
  leftDesc : RangeDescriptor
  rightDesc : RangeDescriptor
deriving DecidableEq

/-- `roachpb.ReplicaChangeType` (defined outside `src/`). -/
inductive ReplicaChangeType where
  | addReplica
  | removeReplica
deriving DecidableEq

/-- Change-replicas trigger payload (defined outside `src/`): the embedded
code reads `ChangeType` and `Replica.StoreID`. -/
structure ChangeReplicasInfo where
  changeType : ReplicaChangeType
  replica : ReplicaDescriptor
deriving DecidableEq

/-- `roachpb.ComputeChecksumRequest` (defined outside `src/`): the embedded
code reads `ChecksumID` and `Snapshot`. -/
structure ComputeChecksumRequest where
  checksumID : Nat
  snapshot : Bool
deriving DecidableEq

/-- `roachpb.Span` (defined outside `src/`): a key range. -/
structure Span where
  key : Nat
  endKey : Nat
deriving DecidableEq

/-- `storagebase.ReplicaState` (defined outside `src/`), with exactly the
fields the embedded code touches: applied indexes, descriptor, lease,
truncated state, GC watermarks, stats, frozen flag. -/
structure ReplicaState where
  raftAppliedIndex : Nat
  leaseAppliedIndex : Nat
  desc : Option RangeDescriptor
  lease : Option Lease
  truncatedState : Option TruncatedState
  gcThreshold : Timestamp
  txnSpanGCThreshold : Timestamp
  stats : MVCCStats
  frozen : FrozenStatus
deriving DecidableEq

/-- Go zero value `storagebase.ReplicaState{}`. -/
def ReplicaState.zero : ReplicaState :=
  ⟨0, 0, none, none, none, zeroTimestamp, zeroTimestamp, MVCCStats.zero, .frozenUnspecified⟩

/-- `storagebase.ReplicatedEvalResult` (defined outside `src/`), with the
fields the embedded code touches: the `State` sub-record, trigger pointers,
the stats delta and the metadata flags zeroed at the top of
`handleReplicatedEvalResult`. -/
structure ReplicatedEvalResult where
  state : ReplicaState
  blockReads : Bool
  split : Option SplitInfo
  merge : Option MergeInfo
  changeReplicas : Option ChangeReplicasInfo
  computeChecksum : Option ComputeChecksumRequest
  delta : MVCCStats
  isLeaseRequest : Bool
  isConsistencyRelated : Bool
  isFreeze : Bool
  timestamp : Timestamp
deriving DecidableEq

/-- Go zero value `storagebase.ReplicatedEvalResult{}`. -/
def ReplicatedEvalResult.zero : ReplicatedEvalResult :=
  ⟨ReplicaState.zero, false, none, none, none, none, MVCCStats.zero,
    false, false, false, zeroTimestamp⟩

/-- `LocalEvalResult` (`replica_proposal.go` lines 43-97). Channels,
interfaces, pointers-to-callbacks and pointer payloads are embedded as
`Bool` presence flags or `Option` values (`false`/`none` is Go `nil`). -/
structure LocalEvalResult where
  idKey : String
  proposedAtTicks : Int
  ctx : Bool
  err : Option Nat
  reply : Option Nat
  endCmds : Bool
  doneCh : Bool
  batch : Bool
  raftLogSize : Option Int
  intents : Option (List Nat)
  leaseMetricsResult : Option Bool
  gossipFirstRange : Bool
  maybeGossipSystemConfig : Bool
  maybeAddToSplitQueue : Bool
  maybeGossipNodeLiveness : Option Span
deriving DecidableEq

/-- Go zero value `LocalEvalResult{}`. -/
def LocalEvalResult.zero : LocalEvalResult :=
  ⟨"", 0, false, none, none, false, false, false, none, none, none,
    false, false, false, none⟩

/-- `EvalResult` (`replica_proposal.go` lines 122-129): the embedded
`LocalEvalResult` and `ReplicatedEvalResult` plus the top-level fields. -/
structure EvalResult where
  localResult : LocalEvalResult
  maxLeaseIndex : Nat
  originReplica : ReplicaDescriptor
  request : Bool
  replicated : ReplicatedEvalResult
  writeBatch : Bool
deriving DecidableEq

/-- Go zero value `EvalResult{}`. -/
def EvalResult.zero : EvalResult :=
  ⟨LocalEvalResult.zero, 0, ReplicaDescriptor.zero, false,
    ReplicatedEvalResult.zero, false⟩

/-- `coalesceBool` (lines 131-135): ORs rhs into lhs and then zeroes rhs;
the in-place mutation is embedded as returning the new `(lhs, rhs)` pair. -/
def coalesceBool (lhs rhs : Bool) : Bool × Bool := (lhs || rhs, false)

/-!
`MergeAndDestroy` (lines 142-263) is embedded as a pipeline of steps, one
per contiguous block of the Go function, each taking and returning the
`(p, q)` pair (Go mutates `*p` and its by-value copy of `q` in place).
Errors short-circuit exactly as Go `return` does.
-/

/-- Lines 146-151: a merged-in record must not carry either applied index;
both rejections use the string "must not specify RaftApplyIndex". -/
def mergeAppliedIndices (pq : EvalResult × EvalResult) :
    Except String (EvalResult × EvalResult) :=
  if pq.2.replicated.state.raftAppliedIndex ≠ 0 then
    .error "must not specify RaftApplyIndex"
  else if pq.2.replicated.state.leaseAppliedIndex ≠ 0 then
    .error "must not specify RaftApplyIndex"
  else .ok pq

/-- Lines 152-157: take whichever `State.Desc` is set, conflict if both. -/
def mergeDesc (pq : EvalResult × EvalResult) :
    Except String (EvalResult × EvalResult) :=
  let p := pq.1; let q := pq.2
  if p.replicated.state.desc = none then
    .ok ({p with replicated.state.desc := q.replicated.state.desc},
         {q with replicated.state.desc := none})
  else if q.replicated.state.desc ≠ none then
    .error "conflicting RangeDescriptor"
  else
    .ok (p, {q with replicated.state.desc := none})

/-- Lines 159-164: take whichever `State.Lease` is set, conflict if both. -/
def mergeLease (pq : EvalResult × EvalResult) :
    Except String (EvalResult × EvalResult) :=
  let p := pq.1; let q := pq.2
  if p.replicated.state.lease = none then
    .ok ({p with replicated.state.lease := q.replicated.state.lease},
         {q with replicated.state.lease := none})
  else if q.replicated.state.lease ≠ none then
    .error "conflicting Lease"
  else
    .ok (p, {q with replicated.state.lease := none})

/-- Lines 166-171: take whichever `State.TruncatedState` is set, conflict
if both. -/
def mergeTruncatedState (pq : EvalResult × EvalResult) :
    Except String (EvalResult × EvalResult) :=
  let p := pq.1; let q := pq.2
  if p.replicated.state.truncatedState = none then
    .ok ({p with replicated.state.truncatedState := q.replicated.state.truncatedState},
         {q with replicated.state.truncatedState := none})
  else if q.replicated.state.truncatedState ≠ none then
    .error "conflicting TruncatedState"
  else
    .ok (p, {q with replicated.state.truncatedState := none})

/-- Lines 173-176: forward both GC watermarks, zeroing the source side. -/
def mergeGCThresholds (pq : EvalResult × EvalResult) :
    Except String (EvalResult × EvalResult) :=
  let p := pq.1; let q := pq.2
  .ok ({p with
          replicated.state.gcThreshold :=
            Timestamp.forward p.replicated.state.gcThreshold q.replicated.state.gcThreshold,
          replicated.state.txnSpanGCThreshold :=
            Timestamp.forward p.replicated.state.txnSpanGCThreshold
              q.replicated.state.txnSpanGCThreshold},
       {q with
          replicated.state.gcThreshold := zeroTimestamp,
          replicated.state.txnSpanGCThreshold := zeroTimestamp})

/-- Lines 178-180: a merged-in record must not carry `State.Stats`. -/
def mergeStatsCheck (pq : EvalResult × EvalResult) :
    Except String (EvalResult × EvalResult) :=
  if pq.2.replicated.state.stats ≠ MVCCStats.zero then
    .error "must not specify Stats"
  else .ok pq

/-- Lines 182-187: take whichever `State.Frozen` is specified, conflict if
both are. -/
def mergeFrozen (pq : EvalResult × EvalResult) :
    Except String (EvalResult × EvalResult) :=
  let p := pq.1; let q := pq.2
  if p.replicated.state.frozen = .frozenUnspecified then
    .ok ({p with replicated.state.frozen := q.replicated.state.frozen},
         {q with replicated.state.frozen := .frozenUnspecified})
  else if q.replicated.state.frozen ≠ .frozenUnspecified then
    .error "conflicting FrozenStatus"
  else
    .ok (p, {q with replicated.state.frozen := .frozenUnspecified})

/-- Lines 189-190: OR `BlockReads` into the destination, zero the source. -/
def mergeBlockReads (pq : EvalResult × EvalResult) :
    Except String (EvalResult × EvalResult) :=
  let p := pq.1; let q := pq.2
  .ok ({p with replicated.blockReads := p.replicated.blockReads || q.replicated.blockReads},
       {q with replicated.blockReads := false})

/-- Lines 192-197: take whichever `Split` is set, conflict if both. -/
def mergeSplit (pq : EvalResult × EvalResult) :
    Except String (EvalResult × EvalResult) :=
  let p := pq.1; let q := pq.2
  if p.replicated.split = none then
    .ok ({p with replicated.split := q.replicated.split},
         {q with replicated.split := none})
  else if q.replicated.split ≠ none then
    .error "conflicting Split"
  else
    .ok (p, {q with replicated.split := none})

/-- Lines 199-204: take whichever `Merge` is set, conflict if both. -/
def mergeMergeTrigger (pq : EvalResult × EvalResult) :
    Except String (EvalResult × EvalResult) :=
  let p := pq.1; let q := pq.2
  if p.replicated.merge = none then
    .ok ({p with replicated.merge := q.replicated.merge},
         {q with replicated.merge := none})
  else if q.replicated.merge ≠ none then
    .error "conflicting Merge"
  else
    .ok (p, {q with replicated.merge := none})

/-- Lines 206-211: take whichever `ChangeReplicas` is set, conflict if
both. -/
def mergeChangeReplicas (pq : EvalResult × EvalResult) :
    Except String (EvalResult × EvalResult) :=
  let p := pq.1; let q := pq.2
  if p.replicated.changeReplicas = none then
    .ok ({p with replicated.changeReplicas := q.replicated.changeReplicas},
         {q with replicated.changeReplicas := none})
  else if q.replicated.changeReplicas ≠ none then
    .error "conflicting ChangeReplicas"
  else
    .ok (p, {q with replicated.changeReplicas := none})

/-- Lines 213-218: take whichever `ComputeChecksum` is set, conflict if
both. -/
def mergeComputeChecksum (pq : EvalResult × EvalResult) :
    Except String (EvalResult × EvalResult) :=
  let p := pq.1; let q := pq.2
  if p.replicated.computeChecksum = none then
    .ok ({p with replicated.computeChecksum := q.replicated.computeChecksum},
         {q with replicated.computeChecksum := none})
  else if q.replicated.computeChecksum ≠ none then
    .error "conflicting ComputeChecksum"
  else
    .ok (p, {q with replicated.computeChecksum := none})

/-- Lines 224-229: take whichever `raftLogSize` is set, conflict if both. -/
def mergeRaftLogSize (pq : EvalResult × EvalResult) :
    Except String (EvalResult × EvalResult) :=
  let p := pq.1; let q := pq.2
  if p.localResult.raftLogSize = none then
    .ok ({p with localResult.raftLogSize := q.localResult.raftLogSize},
         {q with localResult.raftLogSize := none})
  else if q.localResult.raftLogSize ≠ none then
    .error "conflicting raftLogSize"
  else
    .ok (p, {q with localResult.raftLogSize := none})

/-- Lines 231-238: intents accumulate by appending; never a conflict. -/
def mergeIntents (pq : EvalResult × EvalResult) :
    Except String (EvalResult × EvalResult) :=
  let p := pq.1; let q := pq.2
  let p :=
    match q.localResult.intents with
    | none => p
    | some qIntents =>
      match p.localResult.intents with
      | none => {p with localResult.intents := some qIntents}
      | some pIntents => {p with localResult.intents := some (pIntents ++ qIntents)}
  .ok (p, {q with localResult.intents := none})

/-- Lines 240-245: take whichever `leaseMetricsResult` is set, conflict if
both. -/
def mergeLeaseMetrics (pq : EvalResult × EvalResult) :
    Except String (EvalResult × EvalResult) :=
  let p := pq.1; let q := pq.2
  if p.localResult.leaseMetricsResult = none then
    .ok ({p with localResult.leaseMetricsResult := q.localResult.leaseMetricsResult},
         {q with localResult.leaseMetricsResult := none})
  else if q.localResult.leaseMetricsResult ≠ none then
    .error "conflicting leaseMetricsResult"
  else
    .ok (p, {q with localResult.leaseMetricsResult := none})

/-- Lines 247-252: take whichever `maybeGossipNodeLiveness` is set,
conflict if both. -/
def mergeGossipNodeLiveness (pq : EvalResult × EvalResult) :
    Except String (EvalResult × EvalResult) :=
  let p := pq.1; let q := pq.2
  if p.localResult.maybeGossipNodeLiveness = none then
    .ok ({p with localResult.maybeGossipNodeLiveness := q.localResult.maybeGossipNodeLiveness},
         {q with localResult.maybeGossipNodeLiveness := none})
  else if q.localResult.maybeGossipNodeLiveness ≠ none then
    .error "conflicting maybeGossipNodeLiveness"
  else
    .ok (p, {q with localResult.maybeGossipNodeLiveness := none})

/-- Lines 254-256: coalesce the three OR-accumulable boolean triggers. -/
def mergeCoalesceBools (pq : EvalResult × EvalResult) :
    Except String (EvalResult × EvalResult) :=
  let p := pq.1; let q := pq.2
  let g := coalesceBool p.localResult.gossipFirstRange q.localResult.gossipFirstRange
  let s := coalesceBool p.localResult.maybeGossipSystemConfig q.localResult.maybeGossipSystemConfig
  let a := coalesceBool p.localResult.maybeAddToSplitQueue q.localResult.maybeAddToSplitQueue
  .ok ({p with localResult.gossipFirstRange := g.1,
               localResult.maybeGossipSystemConfig := s.1,
               localResult.maybeAddToSplitQueue := a.1},
       {q with localResult.gossipFirstRange := g.2,
               localResult.maybeGossipSystemConfig := s.2,
               localResult.maybeAddToSplitQueue := a.2})

/-- The field-by-field body of `MergeAndDestroy` (lines 146-256), before
the final unhandled-field assertion. -/
def mergeChain (pq : EvalResult × EvalResult) :
    Except String (EvalResult × EvalResult) :=
  (mergeAppliedIndices pq).bind fun pq =>
  (mergeDesc pq).bind fun pq =>
  (mergeLease pq).bind fun pq =>
  (mergeTruncatedState pq).bind fun pq =>
  (mergeGCThresholds pq).bind fun pq =>
  (mergeStatsCheck pq).bind fun pq =>
  (mergeFrozen pq).bind fun pq =>
  (mergeBlockReads pq).bind fun pq =>
  (mergeSplit pq).bind fun pq =>
  (mergeMergeTrigger pq).bind fun pq =>
  (mergeChangeReplicas pq).bind fun pq =>
  (mergeComputeChecksum pq).bind fun pq =>
  (mergeRaftLogSize pq).bind fun pq =>
  (mergeIntents pq).bind fun pq =>
  (mergeLeaseMetrics pq).bind fun pq =>
  (mergeGossipNodeLiveness pq).bind fun pq =>
  mergeCoalesceBools pq

/-- Outcome of `MergeAndDestroy`: a normal error return, a successful `nil`
return (carrying the updated destination, plus the fully-zeroed source copy
for the record), or the `log.Fatalf` of lines 258-260, which in Go halts
the process instead of returning. -/
inductive MergeOutcome where
  | ok (p : EvalResult) (q : EvalResult)
  | err (msg : String)
  | fatalUnhandled (q : EvalResult)
deriving DecidableEq

/-- `MergeAndDestroy` (lines 142-263): run the field-by-field merge; on
success assert that the merged-in record is entirely zero-valued, going
fatal otherwise (lines 258-260). -/
def MergeAndDestroy (p q : EvalResult) : MergeOutcome :=
  match mergeChain (p, q) with
  | .error e => .err e
  | .ok (p1, q1) =>
    if q1 = EvalResult.zero then .ok p1 q1 else .fatalUnhandled q1

/-- The exclusive-trigger fields of an `EvalResult`: those for which
`MergeAndDestroy` reports a "conflicting <field>" error when both sides
set them. -/
inductive XField where
  | descF
  | leaseF
  | truncatedStateF
  | frozenF
  | splitF
  | mergeF
  | changeReplicasF
  | computeChecksumF
  | raftLogSizeF
  | leaseMetricsF
  | gossipNodeLivenessF
deriving DecidableEq, Fintype

/-- Both records set the given exclusive-trigger field ("set" meaning
non-nil, and for the frozen status: not `FROZEN_UNSPECIFIED`). -/
def XField.BothSet : XField → EvalResult → EvalResult → Prop
  | .descF, p, q =>
      p.replicated.state.desc ≠ none ∧ q.replicated.state.desc ≠ none
  | .leaseF, p, q =>
      p.replicated.state.lease ≠ none ∧ q.replicated.state.lease ≠ none
  | .truncatedStateF, p, q =>
      p.replicated.state.truncatedState ≠ none ∧ q.replicated.state.truncatedState ≠ none
  | .frozenF, p, q =>
      p.replicated.state.frozen ≠ .frozenUnspecified ∧
        q.replicated.state.frozen ≠ .frozenUnspecified
  | .splitF, p, q => p.replicated.split ≠ none ∧ q.replicated.split ≠ none
  | .mergeF, p, q => p.replicated.merge ≠ none ∧ q.replicated.merge ≠ none
  | .changeReplicasF, p, q =>
      p.replicated.changeReplicas ≠ none ∧ q.replicated.changeReplicas ≠ none
  | .computeChecksumF, p, q =>
      p.replicated.computeChecksum ≠ none ∧ q.replicated.computeChecksum ≠ none
  | .raftLogSizeF, p, q =>
      p.localResult.raftLogSize ≠ none ∧ q.localResult.raftLogSize ≠ none
  | .leaseMetricsF, p, q =>
      p.localResult.leaseMetricsResult ≠ none ∧ q.localResult.leaseMetricsResult ≠ none
  | .gossipNodeLivenessF, p, q =>
      p.localResult.maybeGossipNodeLiveness ≠ none ∧
        q.localResult.maybeGossipNodeLiveness ≠ none

instance (f : XField) (p q : EvalResult) : Decidable (f.BothSet p q) := by
  cases f <;> dsimp [XField.BothSet] <;> infer_instance

/-- The exact error string `MergeAndDestroy` produces for a conflict on
each exclusive-trigger field. -/
def XField.conflictErr : XField → String
  | .descF => "conflicting RangeDescriptor"
  | .leaseF => "conflicting Lease"
  | .truncatedStateF => "conflicting TruncatedState"
  | .frozenF => "conflicting FrozenStatus"
  | .splitF => "conflicting Split"
  | .mergeF => "conflicting Merge"
  | .changeReplicasF => "conflicting ChangeReplicas"
  | .computeChecksumF => "conflicting ComputeChecksum"
  | .raftLogSizeF => "conflicting raftLogSize"
  | .leaseMetricsF => "conflicting leaseMetricsResult"
  | .gossipNodeLivenessF => "conflicting maybeGossipNodeLiveness"

lemma except_bind_ok {ε α β : Type} (a : α) (f : α → Except ε β) :
    (Except.ok (ε := ε) a).bind f = f a := rfl

lemma except_bind_error {ε α β : Type} (e : ε) (f : α → Except ε β) :
    (Except.error (α := α) e).bind f = Except.error (α := β) e := rfl

lemma notBothNone_resolve {α : Type} {a b : Option α}
    (h : ¬(a ≠ none ∧ b ≠ none)) : a = none ∨ b = none := by tauto

lemma mergeAppliedIndices_ok (pq : EvalResult × EvalResult)
    (h1 : pq.2.replicated.state.raftAppliedIndex = 0)
    (h2 : pq.2.replicated.state.leaseAppliedIndex = 0) :
    mergeAppliedIndices pq = .ok pq := by
  simp [mergeAppliedIndices, h1, h2]

lemma mergeDesc_ok (p q : EvalResult)
    (h : p.replicated.state.desc = none ∨ q.replicated.state.desc = none) :
    mergeDesc (p, q) =
      .ok ({p with replicated.state.desc :=
              if p.replicated.state.desc = none then q.replicated.state.desc
              else p.replicated.state.desc},
           {q with replicated.state.desc := none}) := by
  rcases h with h | h
  · simp [mergeDesc, h]
  · by_cases hp : p.replicated.state.desc = none <;> simp [mergeDesc, hp, h]

lemma mergeDesc_err (p q : EvalResult)
    (hp : p.replicated.state.desc ≠ none) (hq : q.replicated.state.desc ≠ none) :
    mergeDesc (p, q) = .error "conflicting RangeDescriptor" := by
  simp [mergeDesc, hp, hq]

lemma mergeLease_ok (p q : EvalResult)
    (h : p.replicated.state.lease = none ∨ q.replicated.state.lease = none) :
    mergeLease (p, q) =
      .ok ({p with replicated.state.lease :=
              if p.replicated.state.lease = none then q.replicated.state.lease
              else p.replicated.state.lease},
           {q with replicated.state.lease := none}) := by
  rcases h with h | h
  · simp [mergeLease, h]
  · by_cases hp : p.replicated.state.lease = none <;> simp [mergeLease, hp, h]

lemma mergeLease_err (p q : EvalResult)
    (hp : p.replicated.state.lease ≠ none) (hq : q.replicated.state.lease ≠ none) :
    mergeLease (p, q) = .error "conflicting Lease" := by
  simp [mergeLease, hp, hq]

lemma mergeTruncatedState_ok (p q : EvalResult)
    (h : p.replicated.state.truncatedState = none ∨ q.replicated.state.truncatedState = none) :
    mergeTruncatedState (p, q) =
      .ok ({p with replicated.state.truncatedState :=
              if p.replicated.state.truncatedState = none then q.replicated.state.truncatedState
              else p.replicated.state.truncatedState},
           {q with replicated.state.truncatedState := none}) := by
  rcases h with h | h
  · simp [mergeTruncatedState, h]
  · by_cases hp : p.replicated.state.truncatedState = none <;> simp [mergeTruncatedState, hp, h]

lemma mergeTruncatedState_err (p q : EvalResult)
    (hp : p.replicated.state.truncatedState ≠ none) (hq : q.replicated.state.truncatedState ≠ none) :
    mergeTruncatedState (p, q) = .error "conflicting TruncatedState" := by
  simp [mergeTruncatedState, hp, hq]

lemma mergeSplit_ok (p q : EvalResult)
    (h : p.replicated.split = none ∨ q.replicated.split = none) :
    mergeSplit (p, q) =
      .ok ({p with replicated.split :=
              if p.replicated.split = none then q.replicated.split
              else p.replicated.split},
           {q with replicated.split := none}) := by
  rcases h with h | h
  · simp [mergeSplit, h]
  · by_cases hp : p.replicated.split = none <;> simp [mergeSplit, hp, h]

lemma mergeSplit_err (p q : EvalResult)
    (hp : p.replicated.split ≠ none) (hq : q.replicated.split ≠ none) :
    mergeSplit (p, q) = .error "conflicting Split" := by
  simp [mergeSplit, hp, hq]

lemma mergeMergeTrigger_ok (p q : EvalResult)
    (h : p.replicated.merge = none ∨ q.replicated.merge = none) :
    mergeMergeTrigger (p, q) =
      .ok ({p with replicated.merge :=
              if p.replicated.merge = none then q.replicated.merge
              else p.replicated.merge},
           {q with replicated.merge := none}) := by
  rcases h with h | h
  · simp [mergeMergeTrigger, h]
  · by_cases hp : p.replicated.merge = none <;> simp [mergeMergeTrigger, hp, h]

lemma mergeMergeTrigger_err (p q : EvalResult)
    (hp : p.replicated.merge ≠ none) (hq : q.replicated.merge ≠ none) :
    mergeMergeTrigger (p, q) = .error "conflicting Merge" := by
  simp [mergeMergeTrigger, hp, hq]

lemma mergeChangeReplicas_ok (p q : EvalResult)
    (h : p.replicated.changeReplicas = none ∨ q.replicated.changeReplicas = none) :
    mergeChangeReplicas (p, q) =
      .ok ({p with replicated.changeReplicas :=
              if p.replicated.changeReplicas = none then q.replicated.changeReplicas
              else p.replicated.changeReplicas},
           {q with replicated.changeReplicas := none}) := by
  rcases h with h | h
  · simp [mergeChangeReplicas, h]
  · by_cases hp : p.replicated.changeReplicas = none <;> simp [mergeChangeReplicas, hp, h]

lemma mergeChangeReplicas_err (p q : EvalResult)
    (hp : p.replicated.changeReplicas ≠ none) (hq : q.replicated.changeReplicas ≠ none) :
    mergeChangeReplicas (p, q) = .error "conflicting ChangeReplicas" := by
  simp [mergeChangeReplicas, hp, hq]

lemma mergeComputeChecksum_ok (p q : EvalResult)
    (h : p.replicated.computeChecksum = none ∨ q.replicated.computeChecksum = none) :
    mergeComputeChecksum (p, q) =
      .ok ({p with replicated.computeChecksum :=
              if p.replicated.computeChecksum = none then q.replicated.computeChecksum
              else p.replicated.computeChecksum},
           {q with replicated.computeChecksum := none}) := by
  rcases h with h | h
  · simp [mergeComputeChecksum, h]
  · by_cases hp : p.replicated.computeChecksum = none <;> simp [mergeComputeChecksum, hp, h]

lemma mergeComputeChecksum_err (p q : EvalResult)
    (hp : p.replicated.computeChecksum ≠ none) (hq : q.replicated.computeChecksum ≠ none) :
    mergeComputeChecksum (p, q) = .error "conflicting ComputeChecksum" := by
  simp [mergeComputeChecksum, hp, hq]

lemma mergeRaftLogSize_ok (p q : EvalResult)
    (h : p.localResult.raftLogSize = none ∨ q.localResult.raftLogSize = none) :
    mergeRaftLogSize (p, q) =
      .ok ({p with localResult.raftLogSize :=
              if p.localResult.raftLogSize = none then q.localResult.raftLogSize
              else p.localResult.raftLogSize},
           {q with localResult.raftLogSize := none}) := by
  rcases h with h | h
  · simp [mergeRaftLogSize, h]
  · by_cases hp : p.localResult.raftLogSize = none <;> simp [mergeRaftLogSize, hp, h]

lemma mergeRaftLogSize_err (p q : EvalResult)
    (hp : p.localResult.raftLogSize ≠ none) (hq : q.localResult.raftLogSize ≠ none) :
    mergeRaftLogSize (p, q) = .error "conflicting raftLogSize" := by
  simp [mergeRaftLogSize, hp, hq]

lemma mergeLeaseMetrics_ok (p q : EvalResult)
    (h : p.localResult.leaseMetricsResult = none ∨ q.localResult.leaseMetricsResult = none) :
    mergeLeaseMetrics (p, q) =
      .ok ({p with localResult.leaseMetricsResult :=
              if p.localResult.leaseMetricsResult = none then q.localResult.leaseMetricsResult
              else p.localResult.leaseMetricsResult},
           {q with localResult.leaseMetricsResult := none}) := by
  rcases h with h | h
  · simp [mergeLeaseMetrics, h]
  · by_cases hp : p.localResult.leaseMetricsResult = none <;> simp [mergeLeaseMetrics, hp, h]

lemma mergeLeaseMetrics_err (p q : EvalResult)
    (hp : p.localResult.leaseMetricsResult ≠ none) (hq : q.localResult.leaseMetricsResult ≠ none) :
    mergeLeaseMetrics (p, q) = .error "conflicting leaseMetricsResult" := by
  simp [mergeLeaseMetrics, hp, hq]

lemma mergeGossipNodeLiveness_ok (p q : EvalResult)
    (h : p.localResult.maybeGossipNodeLiveness = none ∨ q.localResult.maybeGossipNodeLiveness = none) :
    mergeGossipNodeLiveness (p, q) =
      .ok ({p with localResult.maybeGossipNodeLiveness :=
              if p.localResult.maybeGossipNodeLiveness = none then q.localResult.maybeGossipNodeLiveness
              else p.localResult.maybeGossipNodeLiveness},
           {q with localResult.maybeGossipNodeLiveness := none}) := by
  rcases h with h | h
  · simp [mergeGossipNodeLiveness, h]
  · by_cases hp : p.localResult.maybeGossipNodeLiveness = none <;> simp [mergeGossipNodeLiveness, hp, h]

lemma mergeGossipNodeLiveness_err (p q : EvalResult)
    (hp : p.localResult.maybeGossipNodeLiveness ≠ none) (hq : q.localResult.maybeGossipNodeLiveness ≠ none) :
    mergeGossipNodeLiveness (p, q) = .error "conflicting maybeGossipNodeLiveness" := by
  simp [mergeGossipNodeLiveness, hp, hq]

lemma notBothNe_resolve {α : Type} {a b z : α} (h : ¬(a ≠ z ∧ b ≠ z)) :
    a = z ∨ b = z := by tauto

lemma mergeFrozen_ok (p q : EvalResult)
    (h : p.replicated.state.frozen = .frozenUnspecified ∨
         q.replicated.state.frozen = .frozenUnspecified) :
    mergeFrozen (p, q) =
      .ok ({p with replicated.state.frozen :=
              if p.replicated.state.frozen = .frozenUnspecified then q.replicated.state.frozen
              else p.replicated.state.frozen},
           {q with replicated.state.frozen := .frozenUnspecified}) := by
  rcases h with h | h
  · simp [mergeFrozen, h]
  · by_cases hp : p.replicated.state.frozen = .frozenUnspecified <;> simp [mergeFrozen, hp, h]

lemma mergeFrozen_err (p q : EvalResult)
    (hp : p.replicated.state.frozen ≠ .frozenUnspecified)
    (hq : q.replicated.state.frozen ≠ .frozenUnspecified) :
    mergeFrozen (p, q) = .error "conflicting FrozenStatus" := by
  simp [mergeFrozen, hp, hq]

lemma mergeStatsCheck_ok (pq : EvalResult × EvalResult)
    (h : pq.2.replicated.state.stats = MVCCStats.zero) :
    mergeStatsCheck pq = .ok pq := by
  simp [mergeStatsCheck, h]

/-- The combination the intents-append step (lines 231-238) computes. -/
def mergedIntents (a b : Option (List Nat)) : Option (List Nat) :=
  match b with
  | none => a
  | some qi =>
    match a with
    | none => some qi
    | some pi => some (pi ++ qi)

lemma mergeIntents_ok (p q : EvalResult) :
    mergeIntents (p, q) =
      .ok ({p with localResult.intents :=
              mergedIntents p.localResult.intents q.localResult.intents},
           {q with localResult.intents := none}) := by
  rcases hq : q.localResult.intents with _ | qi
  · simp [mergeIntents, mergedIntents, hq]
  · rcases hp : p.localResult.intents with _ | pi <;>
      simp [mergeIntents, mergedIntents, hp, hq]

lemma mergeAndDestroy_err_of (p q : EvalResult) (e : String)
    (h : mergeChain (p, q) = .error e) : MergeAndDestroy p q = .err e := by
  simp [MergeAndDestroy, h]

/-- C10: a merged-in record with a non-zero `leaseAppliedIndex` is rejected
immediately, but with the error message "must not specify RaftApplyIndex" —
the identical message produced for a non-zero `raftAppliedIndex` — so the
error does not name the field that actually caused the rejection. -/
theorem mergeLeaseAppliedIndexRejectionMessage (p q : EvalResult)
    (h : q.replicated.state.leaseAppliedIndex ≠ 0) :
    MergeAndDestroy p q = .err "must not specify RaftApplyIndex" := by
  apply mergeAndDestroy_err_of
  have hidx : mergeAppliedIndices (p, q) = .error "must not specify RaftApplyIndex" := by
    by_cases hr : q.replicated.state.raftAppliedIndex = 0 <;>
      simp [mergeAppliedIndices, hr, h]
  simp [mergeChain, hidx, except_bind_error]

/-- Witness for C10 at a concrete input. -/
theorem mergeLeaseAppliedIndexRejectionMessageWitness :
    ({EvalResult.zero with
        replicated.state.leaseAppliedIndex := 5} : EvalResult).replicated.state.leaseAppliedIndex ≠ 0 ∧
    MergeAndDestroy EvalResult.zero
        {EvalResult.zero with replicated.state.leaseAppliedIndex := 5} =
      .err "must not specify RaftApplyIndex" :=
  ⟨by decide,
   mergeLeaseAppliedIndexRejectionMessage EvalResult.zero
     {EvalResult.zero with replicated.state.leaseAppliedIndex := 5} (by decide)⟩

/-- C3: whenever `MergeAndDestroy` returns without error (and without the
fatal unhandled-field check firing, which in Go halts the process), the
merged-away source record is entirely zero-valued. -/
theorem mergeSuccessZeroesSource (p q pOut qOut : EvalResult)
    (h : MergeAndDestroy p q = .ok pOut qOut) : qOut = EvalResult.zero := by
  unfold MergeAndDestroy at h
  rcases hc : mergeChain (p, q) with e | ⟨a, b⟩ <;> rw [hc] at h <;> dsimp only at h
  · cases h
  · by_cases hz : b = EvalResult.zero
    · rw [if_pos hz] at h
      cases h
      exact hz
    · rw [if_neg hz] at h
      cases h

/-- Witness for C3 at a concrete input. -/
theorem mergeSuccessZeroesSourceWitness :
    MergeAndDestroy EvalResult.zero EvalResult.zero =
        .ok EvalResult.zero EvalResult.zero ∧
      EvalResult.zero = EvalResult.zero :=
  ⟨by decide,
   mergeSuccessZeroesSource EvalResult.zero EvalResult.zero EvalResult.zero
     EvalResult.zero (by decide)⟩

/-- C1: for every pair of records that both set the same exclusive-trigger
field (with the merged-in record passing the applied-index and stats
pre-checks), `MergeAndDestroy` returns a conflict error naming a field that
both records set — the first such field in check order — and does not
silently pick one of the two values. -/
theorem mergeConflictingTriggerFieldsError (p q : EvalResult)
    (h1 : q.replicated.state.raftAppliedIndex = 0)
    (h2 : q.replicated.state.leaseAppliedIndex = 0)
    (h3 : q.replicated.state.stats = MVCCStats.zero)
    (f : XField) (hf : f.BothSet p q) :
    ∃ g : XField, g.BothSet p q ∧ MergeAndDestroy p q = .err g.conflictErr := by
  by_cases hD : XField.BothSet .descF p q
  · refine ⟨.descF, hD, ?_⟩
    apply mergeAndDestroy_err_of
    simp [mergeChain, except_bind_ok, except_bind_error, XField.conflictErr, mergeAppliedIndices_ok, h1, h2, mergeGCThresholds, mergeStatsCheck_ok, h3, mergeBlockReads, mergeIntents_ok, mergeDesc_err, hD.1, hD.2]
  ·
    by_cases hL : XField.BothSet .leaseF p q
    · refine ⟨.leaseF, hL, ?_⟩
      apply mergeAndDestroy_err_of
      simp [mergeChain, except_bind_ok, except_bind_error, XField.conflictErr, mergeAppliedIndices_ok, h1, h2, mergeGCThresholds, mergeStatsCheck_ok, h3, mergeBlockReads, mergeIntents_ok, mergeDesc_ok, notBothNone_resolve hD, mergeLease_err, hL.1, hL.2]
    ·
      by_cases hT : XField.BothSet .truncatedStateF p q
      · refine ⟨.truncatedStateF, hT, ?_⟩
        apply mergeAndDestroy_err_of
        simp [mergeChain, except_bind_ok, except_bind_error, XField.conflictErr, mergeAppliedIndices_ok, h1, h2, mergeGCThresholds, mergeStatsCheck_ok, h3, mergeBlockReads, mergeIntents_ok, mergeDesc_ok, notBothNone_resolve hD, mergeLease_ok, notBothNone_resolve hL, mergeTruncatedState_err, hT.1, hT.2]
      ·
        by_cases hF : XField.BothSet .frozenF p q
        · refine ⟨.frozenF, hF, ?_⟩
          apply mergeAndDestroy_err_of
          simp [mergeChain, except_bind_ok, except_bind_error, XField.conflictErr, mergeAppliedIndices_ok, h1, h2, mergeGCThresholds, mergeStatsCheck_ok, h3, mergeBlockReads, mergeIntents_ok, mergeDesc_ok, notBothNone_resolve hD, mergeLease_ok, notBothNone_resolve hL, mergeTruncatedState_ok, notBothNone_resolve hT, mergeFrozen_err, hF.1, hF.2]
        ·
          by_cases hS : XField.BothSet .splitF p q
          · refine ⟨.splitF, hS, ?_⟩
            apply mergeAndDestroy_err_of
            simp [mergeChain, except_bind_ok, except_bind_error, XField.conflictErr, mergeAppliedIndices_ok, h1, h2, mergeGCThresholds, mergeStatsCheck_ok, h3, mergeBlockReads, mergeIntents_ok, mergeDesc_ok, notBothNone_resolve hD, mergeLease_ok, notBothNone_resolve hL, mergeTruncatedState_ok, notBothNone_resolve hT, mergeFrozen_ok, notBothNe_resolve hF, mergeSplit_err, hS.1, hS.2]
          ·
            by_cases hM : XField.BothSet .mergeF p q
            · refine ⟨.mergeF, hM, ?_⟩
              apply mergeAndDestroy_err_of
              simp [mergeChain, except_bind_ok, except_bind_error, XField.conflictErr, mergeAppliedIndices_ok, h1, h2, mergeGCThresholds, mergeStatsCheck_ok, h3, mergeBlockReads, mergeIntents_ok, mergeDesc_ok, notBothNone_resolve hD, mergeLease_ok, notBothNone_resolve hL, mergeTruncatedState_ok, notBothNone_resolve hT, mergeFrozen_ok, notBothNe_resolve hF, mergeSplit_ok, notBothNone_resolve hS, mergeMergeTrigger_err, hM.1, hM.2]
            ·
              by_cases hC : XField.BothSet .changeReplicasF p q
              · refine ⟨.changeReplicasF, hC, ?_⟩
                apply mergeAndDestroy_err_of
                simp [mergeChain, except_bind_ok, except_bind_error, XField.conflictErr, mergeAppliedIndices_ok, h1, h2, mergeGCThresholds, mergeStatsCheck_ok, h3, mergeBlockReads, mergeIntents_ok, mergeDesc_ok, notBothNone_resolve hD, mergeLease_ok, notBothNone_resolve hL, mergeTruncatedState_ok, notBothNone_resolve hT, mergeFrozen_ok, notBothNe_resolve hF, mergeSplit_ok, notBothNone_resolve hS, mergeMergeTrigger_ok, notBothNone_resolve hM, mergeChangeReplicas_err, hC.1, hC.2]
              ·
                by_cases hK : XField.BothSet .computeChecksumF p q
                · refine ⟨.computeChecksumF, hK, ?_⟩
                  apply mergeAndDestroy_err_of
                  simp [mergeChain, except_bind_ok, except_bind_error, XField.conflictErr, mergeAppliedIndices_ok, h1, h2, mergeGCThresholds, mergeStatsCheck_ok, h3, mergeBlockReads, mergeIntents_ok, mergeDesc_ok, notBothNone_resolve hD, mergeLease_ok, notBothNone_resolve hL, mergeTruncatedState_ok, notBothNone_resolve hT, mergeFrozen_ok, notBothNe_resolve hF, mergeSplit_ok, notBothNone_resolve hS, mergeMergeTrigger_ok, notBothNone_resolve hM, mergeChangeReplicas_ok, notBothNone_resolve hC, mergeComputeChecksum_err, hK.1, hK.2]
                ·
                  by_cases hR : XField.BothSet .raftLogSizeF p q
                  · refine ⟨.raftLogSizeF, hR, ?_⟩
                    apply mergeAndDestroy_err_of
                    simp [mergeChain, except_bind_ok, except_bind_error, XField.conflictErr, mergeAppliedIndices_ok, h1, h2, mergeGCThresholds, mergeStatsCheck_ok, h3, mergeBlockReads, mergeIntents_ok, mergeDesc_ok, notBothNone_resolve hD, mergeLease_ok, notBothNone_resolve hL, mergeTruncatedState_ok, notBothNone_resolve hT, mergeFrozen_ok, notBothNe_resolve hF, mergeSplit_ok, notBothNone_resolve hS, mergeMergeTrigger_ok, notBothNone_resolve hM, mergeChangeReplicas_ok, notBothNone_resolve hC, mergeComputeChecksum_ok, notBothNone_resolve hK, mergeRaftLogSize_err, hR.1, hR.2]
                  ·
                    by_cases hLM : XField.BothSet .leaseMetricsF p q
                    · refine ⟨.leaseMetricsF, hLM, ?_⟩
                      apply mergeAndDestroy_err_of
                      simp [mergeChain, except_bind_ok, except_bind_error, XField.conflictErr, mergeAppliedIndices_ok, h1, h2, mergeGCThresholds, mergeStatsCheck_ok, h3, mergeBlockReads, mergeIntents_ok, mergeDesc_ok, notBothNone_resolve hD, mergeLease_ok, notBothNone_resolve hL, mergeTruncatedState_ok, notBothNone_resolve hT, mergeFrozen_ok, notBothNe_resolve hF, mergeSplit_ok, notBothNone_resolve hS, mergeMergeTrigger_ok, notBothNone_resolve hM, mergeChangeReplicas_ok, notBothNone_resolve hC, mergeComputeChecksum_ok, notBothNone_resolve hK, mergeRaftLogSize_ok, notBothNone_resolve hR, mergeLeaseMetrics_err, hLM.1, hLM.2]
                    ·
                      by_cases hG : XField.BothSet .gossipNodeLivenessF p q
                      · refine ⟨.gossipNodeLivenessF, hG, ?_⟩
                        apply mergeAndDestroy_err_of
                        simp [mergeChain, except_bind_ok, except_bind_error, XField.conflictErr, mergeAppliedIndices_ok, h1, h2, mergeGCThresholds, mergeStatsCheck_ok, h3, mergeBlockReads, mergeIntents_ok, mergeDesc_ok, notBothNone_resolve hD, mergeLease_ok, notBothNone_resolve hL, mergeTruncatedState_ok, notBothNone_resolve hT, mergeFrozen_ok, notBothNe_resolve hF, mergeSplit_ok, notBothNone_resolve hS, mergeMergeTrigger_ok, notBothNone_resolve hM, mergeChangeReplicas_ok, notBothNone_resolve hC, mergeComputeChecksum_ok, notBothNone_resolve hK, mergeRaftLogSize_ok, notBothNone_resolve hR, mergeLeaseMetrics_ok, notBothNone_resolve hLM, mergeGossipNodeLiveness_err, hG.1, hG.2]
                      ·
                        cases f
                        · exact absurd hf hD
                        · exact absurd hf hL
                        · exact absurd hf hT
                        · exact absurd hf hF
                        · exact absurd hf hS
                        · exact absurd hf hM
                        · exact absurd hf hC
                        · exact absurd hf hK
                        · exact absurd hf hR
                        · exact absurd hf hLM
                        · exact absurd hf hG

/-- Concrete destination record for the C1 witness: a record with a
range descriptor trigger set. -/
def c1Dst : EvalResult :=
  {EvalResult.zero with replicated.state.desc := some ⟨1, 10⟩}

/-- Concrete source record for the C1 witness: another record with a
range descriptor trigger set. -/
def c1Src : EvalResult :=
  {EvalResult.zero with replicated.state.desc := some ⟨1, 20⟩}

/-- Witness for C1 at a concrete input: both records set the descriptor,
and the merge fails with "conflicting RangeDescriptor". -/
theorem mergeConflictingTriggerFieldsErrorWitness :
    (c1Src.replicated.state.raftAppliedIndex = 0 ∧
      c1Src.replicated.state.leaseAppliedIndex = 0 ∧
      c1Src.replicated.state.stats = MVCCStats.zero ∧
      XField.BothSet .descF c1Dst c1Src) ∧
    ∃ g : XField, g.BothSet c1Dst c1Src ∧
      MergeAndDestroy c1Dst c1Src = .err g.conflictErr :=
  ⟨⟨by decide, by decide, by decide, by decide⟩,
   mergeConflictingTriggerFieldsError c1Dst c1Src (by decide) (by decide)
     (by decide) .descF (by decide)⟩

/-- The destination record a fully successful `MergeAndDestroy` produces:
each exclusive-trigger field takes whichever side is set, accumulable
fields are OR-ed / forward-maxed, intents are appended. -/
def mergeCombine (p q : EvalResult) : EvalResult :=
  {p with
    replicated.state.desc :=
      if p.replicated.state.desc = none then q.replicated.state.desc
      else p.replicated.state.desc,
    replicated.state.lease :=
      if p.replicated.state.lease = none then q.replicated.state.lease
      else p.replicated.state.lease,
    replicated.state.truncatedState :=
      if p.replicated.state.truncatedState = none then q.replicated.state.truncatedState
      else p.replicated.state.truncatedState,
    replicated.state.gcThreshold :=
      Timestamp.forward p.replicated.state.gcThreshold q.replicated.state.gcThreshold,
    replicated.state.txnSpanGCThreshold :=
      Timestamp.forward p.replicated.state.txnSpanGCThreshold
        q.replicated.state.txnSpanGCThreshold,
    replicated.state.frozen :=
      if p.replicated.state.frozen = .frozenUnspecified then q.replicated.state.frozen
      else p.replicated.state.frozen,
    replicated.blockReads := p.replicated.blockReads || q.replicated.blockReads,
    replicated.split :=
      if p.replicated.split = none then q.replicated.split else p.replicated.split,
    replicated.merge :=
      if p.replicated.merge = none then q.replicated.merge else p.replicated.merge,
    replicated.changeReplicas :=
      if p.replicated.changeReplicas = none then q.replicated.changeReplicas
      else p.replicated.changeReplicas,
    replicated.computeChecksum :=
      if p.replicated.computeChecksum = none then q.replicated.computeChecksum
      else p.replicated.computeChecksum,
    localResult.raftLogSize :=
      if p.localResult.raftLogSize = none then q.localResult.raftLogSize
      else p.localResult.raftLogSize,
    localResult.intents := mergedIntents p.localResult.intents q.localResult.intents,
    localResult.leaseMetricsResult :=
      if p.localResult.leaseMetricsResult = none then q.localResult.leaseMetricsResult
      else p.localResult.leaseMetricsResult,
    localResult.maybeGossipNodeLiveness :=
      if p.localResult.maybeGossipNodeLiveness = none then q.localResult.maybeGossipNodeLiveness
      else p.localResult.maybeGossipNodeLiveness,
    localResult.gossipFirstRange :=
      p.localResult.gossipFirstRange || q.localResult.gossipFirstRange,
    localResult.maybeGossipSystemConfig :=
      p.localResult.maybeGossipSystemConfig || q.localResult.maybeGossipSystemConfig,
    localResult.maybeAddToSplitQueue :=
      p.localResult.maybeAddToSplitQueue || q.localResult.maybeAddToSplitQueue}

/-- The merged-in record after a fully successful `MergeAndDestroy`: every
field the merge consumes is zeroed, everything else is untouched. -/
def mergeConsume (q : EvalResult) : EvalResult :=
  {q with
    replicated.state.desc := none,
    replicated.state.lease := none,
    replicated.state.truncatedState := none,
    replicated.state.gcThreshold := zeroTimestamp,
    replicated.state.txnSpanGCThreshold := zeroTimestamp,
    replicated.state.frozen := .frozenUnspecified,
    replicated.blockReads := false,
    replicated.split := none,
    replicated.merge := none,
    replicated.changeReplicas := none,
    replicated.computeChecksum := none,
    localResult.raftLogSize := none,
    localResult.intents := none,
    localResult.leaseMetricsResult := none,
    localResult.maybeGossipNodeLiveness := none,
    localResult.gossipFirstRange := false,
    localResult.maybeGossipSystemConfig := false,
    localResult.maybeAddToSplitQueue := false}

/-- With the pre-checks passing and no exclusive-trigger field set on both
sides, the field-by-field merge succeeds with the combined destination and
the consumed source. -/
lemma mergeChain_ok_of_disjoint (p q : EvalResult)
    (h1 : q.replicated.state.raftAppliedIndex = 0)
    (h2 : q.replicated.state.leaseAppliedIndex = 0)
    (h3 : q.replicated.state.stats = MVCCStats.zero)
    (hdisj : ∀ f : XField, ¬ f.BothSet p q) :
    mergeChain (p, q) = .ok (mergeCombine p q, mergeConsume q) := by
  simp [mergeChain, except_bind_ok, mergeAppliedIndices_ok, h1, h2,
        mergeGCThresholds, mergeStatsCheck_ok, h3, mergeBlockReads,
        mergeIntents_ok, mergeCoalesceBools, coalesceBool,
        mergeDesc_ok, notBothNone_resolve (hdisj .descF),
        mergeLease_ok, notBothNone_resolve (hdisj .leaseF),
        mergeTruncatedState_ok, notBothNone_resolve (hdisj .truncatedStateF),
        mergeFrozen_ok, notBothNe_resolve (hdisj .frozenF),
        mergeSplit_ok, notBothNone_resolve (hdisj .splitF),
        mergeMergeTrigger_ok, notBothNone_resolve (hdisj .mergeF),
        mergeChangeReplicas_ok, notBothNone_resolve (hdisj .changeReplicasF),
        mergeComputeChecksum_ok, notBothNone_resolve (hdisj .computeChecksumF),
        mergeRaftLogSize_ok, notBothNone_resolve (hdisj .raftLogSizeF),
        mergeLeaseMetrics_ok, notBothNone_resolve (hdisj .leaseMetricsF),
        mergeGossipNodeLiveness_ok, notBothNone_resolve (hdisj .gossipNodeLivenessF),
        mergeCombine, mergeConsume]

/-- The merged-in record sets only fields `MergeAndDestroy` knows how to
consume: its stats delta, evaluation metadata and proposal bookkeeping
fields are all at their zero values. A source record violating this (and
passing the explicit checks) drives the merge into the fatal
unhandled-field assertion of lines 258-260 instead of succeeding. -/
def mergeSafe (q : EvalResult) : Prop :=
  q.replicated.delta = MVCCStats.zero ∧
  q.replicated.isLeaseRequest = false ∧
  q.replicated.isConsistencyRelated = false ∧
  q.replicated.isFreeze = false ∧
  q.replicated.timestamp = zeroTimestamp ∧
  q.localResult.idKey = "" ∧
  q.localResult.proposedAtTicks = 0 ∧
  q.localResult.ctx = false ∧
  q.localResult.err = none ∧
  q.localResult.reply = none ∧
  q.localResult.endCmds = false ∧
  q.localResult.doneCh = false ∧
  q.localResult.batch = false ∧
  q.maxLeaseIndex = 0 ∧
  q.originReplica = ReplicaDescriptor.zero ∧
  q.request = false ∧
  q.writeBatch = false

instance (q : EvalResult) : Decidable (mergeSafe q) := by
  unfold mergeSafe
  infer_instance

/-- Concrete source record for the C2 counterexample: no trigger field at
all is set, only a non-zero statistics delta. -/
def c2Src : EvalResult :=
  {EvalResult.zero with replicated.delta := ⟨1, false⟩}

/-- Counterexample for C2 as stated: the two records have disjoint
exclusive-trigger fields (none is set on either side), yet `MergeAndDestroy`
does not succeed — the source's non-zero statistics delta is not summed
into the destination but trips the fatal unhandled-field check. -/
theorem mergeDisjointDeltaCounterexample :
    ¬ XField.BothSet .descF EvalResult.zero c2Src ∧
    ¬ XField.BothSet .leaseF EvalResult.zero c2Src ∧
    ¬ XField.BothSet .truncatedStateF EvalResult.zero c2Src ∧
    ¬ XField.BothSet .frozenF EvalResult.zero c2Src ∧
    ¬ XField.BothSet .splitF EvalResult.zero c2Src ∧
    ¬ XField.BothSet .mergeF EvalResult.zero c2Src ∧
    ¬ XField.BothSet .changeReplicasF EvalResult.zero c2Src ∧
    ¬ XField.BothSet .computeChecksumF EvalResult.zero c2Src ∧
    ¬ XField.BothSet .raftLogSizeF EvalResult.zero c2Src ∧
    ¬ XField.BothSet .leaseMetricsF EvalResult.zero c2Src ∧
    ¬ XField.BothSet .gossipNodeLivenessF EvalResult.zero c2Src ∧
    MergeAndDestroy EvalResult.zero c2Src = .fatalUnhandled c2Src := by
  decide

/-- C2 (amended): for records with disjoint exclusive-trigger fields whose
merged-in side passes the pre-checks and carries only merge-handled fields
(`mergeSafe`, in particular a zero statistics delta), the merge succeeds,
and in the result the statistics delta is the sum of the two deltas
(trivially the destination's, the source's being necessarily zero),
`blockReads` and the boolean gossip/split-queue triggers are the OR of the
inputs, the GC watermarks are the forward max, and the intents lists are
concatenated. -/
theorem mergeDisjointAccumulates (p q : EvalResult)
    (h1 : q.replicated.state.raftAppliedIndex = 0)
    (h2 : q.replicated.state.leaseAppliedIndex = 0)
    (h3 : q.replicated.state.stats = MVCCStats.zero)
    (hdisj : ∀ f : XField, ¬ f.BothSet p q)
    (hq : mergeSafe q) :
    ∃ pOut : EvalResult,
      MergeAndDestroy p q = .ok pOut EvalResult.zero ∧
      pOut.replicated.delta = p.replicated.delta.add q.replicated.delta ∧
      pOut.replicated.blockReads = (p.replicated.blockReads || q.replicated.blockReads) ∧
      pOut.localResult.gossipFirstRange =
        (p.localResult.gossipFirstRange || q.localResult.gossipFirstRange) ∧
      pOut.localResult.maybeGossipSystemConfig =
        (p.localResult.maybeGossipSystemConfig || q.localResult.maybeGossipSystemConfig) ∧
      pOut.localResult.maybeAddToSplitQueue =
        (p.localResult.maybeAddToSplitQueue || q.localResult.maybeAddToSplitQueue) ∧
      pOut.replicated.state.gcThreshold =
        Timestamp.forward p.replicated.state.gcThreshold q.replicated.state.gcThreshold ∧
      pOut.replicated.state.txnSpanGCThreshold =
        Timestamp.forward p.replicated.state.txnSpanGCThreshold
          q.replicated.state.txnSpanGCThreshold ∧
      (pOut.localResult.intents).getD [] =
        (p.localResult.intents).getD [] ++ (q.localResult.intents).getD [] := by
  have hchain := mergeChain_ok_of_disjoint p q h1 h2 h3 hdisj
  have hzero : mergeConsume q = EvalResult.zero := by
    obtain ⟨hdl, hlr, hcr, hfz, hts, hik, hpt, hctx, herr, hrep, hec, hdc, hba,
      hmli, horp, hreq, hwb⟩ := hq
    rcases q with ⟨⟨ik, pt, cx, er, rp, ec, dc, ba, rls, its, lmr, gfr, mgs, mas, mgn⟩,
      mli, orp, req,
      ⟨⟨rai, lai, de, le, tr, gct, tst, st, fz⟩, br, sp, mg, crr, cc, dl, ilr, icr, ifz, ts⟩,
      wb⟩
    simp_all [mergeConsume, EvalResult.zero, LocalEvalResult.zero,
      ReplicatedEvalResult.zero, ReplicaState.zero, zeroTimestamp]
  refine ⟨mergeCombine p q, ?_, ?_, ?_, ?_, ?_, ?_, ?_, ?_, ?_⟩
  · simp [MergeAndDestroy, hchain, hzero]
  · simp [mergeCombine, hq.1, MVCCStats.add, MVCCStats.zero]
  · simp [mergeCombine]
  · simp [mergeCombine]
  · simp [mergeCombine]
  · simp [mergeCombine]
  · simp [mergeCombine]
  · simp [mergeCombine]
  · simp only [mergeCombine]
    rcases hpi : p.localResult.intents with _ | pi <;>
      rcases hqi : q.localResult.intents with _ | qi <;>
        simp [mergedIntents, hpi, hqi]

/-- Concrete records for the C2 witness: disjoint triggers, OR-able flags,
forward-maxable watermarks and appendable intents on both sides. -/
def c2WDst : EvalResult :=
  {EvalResult.zero with
    replicated.state.gcThreshold := 3,
    replicated.blockReads := true,
    localResult.intents := some [1]}

/-- Concrete merged-in record for the C2 witness. -/
def c2WSrc : EvalResult :=
  {EvalResult.zero with
    replicated.state.gcThreshold := 5,
    localResult.maybeAddToSplitQueue := true,
    localResult.intents := some [2]}

/-- Witness for the amended C2 at a concrete input. -/
theorem mergeDisjointAccumulatesWitness :
    (c2WSrc.replicated.state.raftAppliedIndex = 0 ∧
      c2WSrc.replicated.state.leaseAppliedIndex = 0 ∧
      c2WSrc.replicated.state.stats = MVCCStats.zero ∧
      (∀ f : XField, ¬ f.BothSet c2WDst c2WSrc) ∧
      mergeSafe c2WSrc) ∧
    ∃ pOut : EvalResult,
      MergeAndDestroy c2WDst c2WSrc = .ok pOut EvalResult.zero ∧
      pOut.replicated.delta = c2WDst.replicated.delta.add c2WSrc.replicated.delta ∧
      pOut.replicated.blockReads =
        (c2WDst.replicated.blockReads || c2WSrc.replicated.blockReads) ∧
      pOut.localResult.gossipFirstRange =
        (c2WDst.localResult.gossipFirstRange || c2WSrc.localResult.gossipFirstRange) ∧
      pOut.localResult.maybeGossipSystemConfig =
        (c2WDst.localResult.maybeGossipSystemConfig ||
          c2WSrc.localResult.maybeGossipSystemConfig) ∧
      pOut.localResult.maybeAddToSplitQueue =
        (c2WDst.localResult.maybeAddToSplitQueue ||
          c2WSrc.localResult.maybeAddToSplitQueue) ∧
      pOut.replicated.state.gcThreshold =
        Timestamp.forward c2WDst.replicated.state.gcThreshold
          c2WSrc.replicated.state.gcThreshold ∧
      pOut.replicated.state.txnSpanGCThreshold =
        Timestamp.forward c2WDst.replicated.state.txnSpanGCThreshold
          c2WSrc.replicated.state.txnSpanGCThreshold ∧
      (pOut.localResult.intents).getD [] =
        (c2WDst.localResult.intents).getD [] ++ (c2WSrc.localResult.intents).getD [] :=
  ⟨⟨by decide, by decide, by decide, by decide, by decide⟩,
   mergeDisjointAccumulates c2WDst c2WSrc (by decide) (by decide) (by decide)
     (by decide) (by decide)⟩

/-!
Replica-side state and effects, for the checksum coordinator (lines
269-325), the lease transition handler (lines 327-413) and the applicators
(lines 415-703). External actions are recorded as explicit effects in
program order; collaborator reads (clock, store id, queue predicates) come
from a read-only environment record.
-/

/-- `replicaChecksum` (declared outside `src/`; used at lines 269-325):
one checksum-table entry. The notification channel is embedded by identity
as a number; `time.Time` is a number with zero meaning "unset". -/
structure ReplicaChecksum where
  started : Bool
  notify : Nat
  gcTimestamp : Nat
  digest : Option Nat
deriving DecidableEq

/-- The per-replica mutable state under `r.mu` that the embedded code
touches, plus a counter used to model allocation of fresh notification
channels. -/
structure ReplicaMu where
  state : ReplicaState
  raftLogSize : Int
  replicaID : Nat
  checksums : List (Nat × ReplicaChecksum)
  nextNotify : Nat
deriving DecidableEq

/-- Read-only collaborator context for one apply call: the clock, the
store/range identity, the split-size predicate, the log-queue staleness
constant, and whether the stopper accepts async tasks. -/
structure ReplicaEnv where
  now : Timestamp
  storeID : Nat
  rangeID : Nat
  isFirstRange : Bool
  needsSplitBySize : Bool
  raftLogQueueStaleThreshold : Nat
  asyncLaunchOK : Bool
deriving DecidableEq

/-- Externally visible actions of the embedded replica code, recorded in
program order. -/
inductive Effect where
  | lockReadOnlyCmdMu
  | unlockReadOnlyCmdMu
  | addMVCCStatsMetrics (delta : MVCCStats)
  | raftLogQueueMaybeAdd (now : Timestamp)
  | splitQueueMaybeAdd (now : Timestamp)
  | persistStats (rangeID : Nat) (stats : MVCCStats)
  | splitTriggerApply (rhsDelta : MVCCStats) (trigger : Nat)
  | mergeRange (endKey : Nat) (rhsRangeID : Nat)
  | replicaGCQueueAdd
  | setDescPersist (d : RangeDescriptor)
  | setTsCacheLowWater (t : Timestamp)
  | clearTsCache (now : Timestamp)
  | gossipFirstRangeSync
  | transferRaftLeadership (target : Nat)
  | clearRaftEntryCache (upTo : Nat)
  | takeSnapshot
  | launchChecksumTask (id : Nat) (notify : Nat) (desc : RangeDescriptor) (withSnapshot : Bool)
  | checksumTaskLaunchFailed (id : Nat)
  | resolveIntentsAsync (intents : List Nat)
  | gossipFirstRangeTask
  | gossipSystemConfig
  | leaseMetricsComplete (outcome : Bool)
  | gossipNodeLiveness (s : Span)
  | assertState
deriving DecidableEq

/-- Go map lookup `r.mu.checksums[id]` over the association-list model. -/
def chkLookup (m : List (Nat × ReplicaChecksum)) (id : Nat) : Option ReplicaChecksum :=
  match m with
  | [] => none
  | (k, v) :: rest => if k = id then some v else chkLookup rest id

/-- Go map assignment `r.mu.checksums[id] = v` over the association-list
model. -/
def chkInsert (m : List (Nat × ReplicaChecksum)) (id : Nat) (v : ReplicaChecksum) :
    List (Nat × ReplicaChecksum) :=
  (id, v) :: m.filter fun kv => decide (kv.1 ≠ id)

/-- `gcOldChecksumEntriesLocked` (lines 269-276): delete every entry whose
gc timestamp is set and lies strictly before `now`. -/
def gcOldChecksumEntriesLocked (now : Nat) (m : List (Nat × ReplicaChecksum)) :
    List (Nat × ReplicaChecksum) :=
  m.filter fun kv => !decide (kv.2.gcTimestamp ≠ 0 ∧ kv.2.gcTimestamp < now)

/-- The shared tail of `computeChecksumPostApply` (lines 298-324): GC old
entries, record a started entry carrying `notify`, take a snapshot and
launch the async digest computation (falling back to a nil-digest
completion if the task cannot be scheduled). -/
def computeChecksumProceed (env : ReplicaEnv) (mu : ReplicaMu)
    (args : ComputeChecksumRequest) (notify : Nat) : ReplicaMu × List Effect :=
  let checksums := gcOldChecksumEntriesLocked env.now mu.checksums
  let checksums := chkInsert checksums args.checksumID
      ⟨true, notify, 0, none⟩
  let desc := (mu.state.desc).getD ⟨0, 0⟩
  let effs :=
    if env.asyncLaunchOK then
      [Effect.takeSnapshot,
       Effect.launchChecksumTask args.checksumID notify desc args.snapshot]
    else
      [Effect.takeSnapshot, Effect.checksumTaskLaunchFailed args.checksumID]
  ({mu with checksums := checksums}, effs)

/-- `computeChecksumPostApply` (lines 278-325): make a fresh notification
channel if the id is unknown, reuse the existing channel if the entry is
not yet started, and return immediately (no GC, no snapshot, no task) if a
previous attempt was already made. -/
def computeChecksumPostApply (env : ReplicaEnv) (mu : ReplicaMu)
    (args : ComputeChecksumRequest) : ReplicaMu × List Effect :=
  match chkLookup mu.checksums args.checksumID with
  | none =>
    computeChecksumProceed env {mu with nextNotify := mu.nextNotify + 1} args mu.nextNotify
  | some c =>
    if c.started then (mu, [])
    else computeChecksumProceed env mu args c.notify

/-- `leasePostApply` (lines 327-385): timestamp-cache bookkeeping on lease
handoff, first-range gossip on acquisition, and best-effort raft
leadership collocation. -/
def leasePostApply (env : ReplicaEnv) (newLease : Lease) (replicaID : Nat)
    (prevLease : Lease) : List Effect :=
  let iAmTheLeaseHolder := newLease.replica.replicaID = replicaID
  let leaseChangingHands := prevLease.replica.storeID ≠ newLease.replica.storeID
  (if leaseChangingHands ∧ iAmTheLeaseHolder then
     Effect.setTsCacheLowWater newLease.start ::
       (if env.isFirstRange ∧ newLease.covers env.now then
          [Effect.gossipFirstRangeSync] else [])
   else []) ++
  (if leaseChangingHands ∧ ¬iAmTheLeaseHolder then [Effect.clearTsCache env.now] else []) ++
  (if ¬iAmTheLeaseHolder ∧ newLease.covers env.now then
     [Effect.transferRaftLeadership newLease.replica.replicaID] else [])

/-- Threaded state of `handleReplicatedEvalResult`: the replica state, the
effects emitted so far (in program order) and the record being consumed. -/
structure RApplyState where
  mu : ReplicaMu
  effects : List Effect
  r : ReplicatedEvalResult
deriving DecidableEq

/-- Lines 421-426: zero the fields no action is taken on here. -/
def hrZeroTrivial (r : ReplicatedEvalResult) : ReplicatedEvalResult :=
  {r with isLeaseRequest := false, isConsistencyRelated := false,
          isFreeze := false, timestamp := zeroTimestamp}

/-- Lines 434-459: fold the stats delta into cumulative stats, set the
applied indexes if non-zero, report the delta to metrics, periodically
enqueue a log-truncation candidate, enqueue a split candidate if over
size, and zero the consumed stats/index fields. -/
def hrStatsAndIndexes (env : ReplicaEnv) (s : RApplyState) : RApplyState :=
  let mu := {s.mu with state.stats := s.mu.state.stats.add s.r.delta}
  let mu := if s.r.state.raftAppliedIndex ≠ 0 then
              {mu with state.raftAppliedIndex := s.r.state.raftAppliedIndex} else mu
  let mu := if s.r.state.leaseAppliedIndex ≠ 0 then
              {mu with state.leaseAppliedIndex := s.r.state.leaseAppliedIndex} else mu
  let needsSplitBySize := env.needsSplitBySize
  let effs := [Effect.addMVCCStatsMetrics s.r.delta]
  let r := {s.r with delta := MVCCStats.zero}
  let raftLogCheckFrequency := 1 + env.raftLogQueueStaleThreshold / 4
  let effs := effs ++
    (if r.state.raftAppliedIndex % raftLogCheckFrequency = 1 then
       [Effect.raftLogQueueMaybeAdd env.now] else [])
  let effs := effs ++
    (if needsSplitBySize then [Effect.splitQueueMaybeAdd env.now] else [])
  let r := {r with state.stats := MVCCStats.zero,
                   state.leaseAppliedIndex := 0,
                   state.raftAppliedIndex := 0}
  ⟨mu, s.effects ++ effs, r⟩

/-- Lines 468-493: on a split, first persist the cumulative stats with the
contains-estimates flag forced false, then apply the split trigger. -/
def hrSplit (env : ReplicaEnv) (s : RApplyState) : RApplyState :=
  match s.r.split with
  | some sp =>
    let mu := {s.mu with state.stats.containsEstimates := false}
    ⟨mu,
     s.effects ++
       [Effect.persistStats env.rangeID mu.state.stats,
        Effect.splitTriggerApply sp.rhsDelta sp.splitTrigger],
     {s.r with split := none}⟩
  | none => s

/-- Lines 495-503: apply the range-merge trigger (failure is fatal in Go). -/
def hrMerge (s : RApplyState) : RApplyState :=
  match s.r.merge with
  | some m =>
    ⟨s.mu, s.effects ++ [Effect.mergeRange m.leftDesc.endKey m.rightDesc.rangeID],
     {s.r with merge := none}⟩
  | none => s

/-- Lines 507-512: update the in-memory frozen flag if specified; the
record field is cleared unconditionally. -/
def hrFrozen (s : RApplyState) : RApplyState :=
  let mu := if s.r.state.frozen ≠ .frozenUnspecified then
              {s.mu with state.frozen := s.r.state.frozen} else s.mu
  ⟨mu, s.effects, {s.r with state.frozen := .frozenUnspecified}⟩

/-- Lines 514-525: install the new range descriptor (via `r.setDesc`,
which updates the in-memory descriptor and persists it; failure is fatal
in Go). -/
def hrDesc (s : RApplyState) : RApplyState :=
  match s.r.state.desc with
  | some newDesc =>
    ⟨{s.mu with state.desc := some newDesc},
     s.effects ++ [Effect.setDescPersist newDesc],
     {s.r with state.desc := none}⟩
  | none => s

/-- Lines 527-540: if this store's replica is being removed, enqueue the
replica for garbage collection (enqueue failure is only logged). -/
def hrChangeReplicas (env : ReplicaEnv) (s : RApplyState) : RApplyState :=
  match s.r.changeReplicas with
  | some change =>
    ⟨s.mu,
     s.effects ++
       (if change.changeType = .removeReplica ∧ env.storeID = change.replica.storeID then
          [Effect.replicaGCQueueAdd] else []),
     {s.r with changeReplicas := none}⟩
  | none => s

/-- Lines 542-552: swap in the new lease under the lock, capturing the
previous lease and replica id, then run the lease transition handler. -/
def hrLease (env : ReplicaEnv) (s : RApplyState) : RApplyState :=
  match s.r.state.lease with
  | some newLease =>
    let replicaID := s.mu.replicaID
    let prevLease := (s.mu.state.lease).getD ⟨⟨0, 0, 0⟩, 0, 0⟩
    ⟨{s.mu with state.lease := some newLease},
     s.effects ++ leasePostApply env newLease replicaID prevLease,
     {s.r with state.lease := none}⟩
  | none => s

/-- Lines 554-562: install the truncation marker and clear cached raft log
entries up to and including the truncated index. -/
def hrTruncatedState (s : RApplyState) : RApplyState :=
  match s.r.state.truncatedState with
  | some newTruncState =>
    ⟨{s.mu with state.truncatedState := some newTruncState},
     s.effects ++ [Effect.clearRaftEntryCache (newTruncState.index + 1)],
     {s.r with state.truncatedState := none}⟩
  | none => s

/-- Lines 564-569: install a changed GC threshold watermark. -/
def hrGCThreshold (s : RApplyState) : RApplyState :=
  if s.r.state.gcThreshold ≠ zeroTimestamp then
    ⟨{s.mu with state.gcThreshold := s.r.state.gcThreshold}, s.effects,
     {s.r with state.gcThreshold := zeroTimestamp}⟩
  else s

/-- Lines 571-576: install a changed transaction-span GC threshold. -/
def hrTxnSpanGCThreshold (s : RApplyState) : RApplyState :=
  if s.r.state.txnSpanGCThreshold ≠ zeroTimestamp then
    ⟨{s.mu with state.txnSpanGCThreshold := s.r.state.txnSpanGCThreshold}, s.effects,
     {s.r with state.txnSpanGCThreshold := zeroTimestamp}⟩
  else s

/-- Lines 578-581: hand the compute-checksum trigger to the checksum
coordinator. -/
def hrComputeChecksum (env : ReplicaEnv) (s : RApplyState) : RApplyState :=
  match s.r.computeChecksum with
  | some args =>
    let muEffs := computeChecksumPostApply env s.mu args
    ⟨muEffs.1, s.effects ++ muEffs.2, {s.r with computeChecksum := none}⟩
  | none => s

/-- Result of `handleReplicatedEvalResult`: the updated replica state, the
effects in program order, the `shouldAssert` return value, and the record
as it stands at the final completeness assertion (lines 583-585). -/
structure RApplyResult where
  mu : ReplicaMu
  effects : List Effect
  shouldAssert : Bool
  final : ReplicatedEvalResult
deriving DecidableEq

/-- `handleReplicatedEvalResult` (lines 415-587). -/
def handleReplicatedEvalResult (env : ReplicaEnv) (mu : ReplicaMu)
    (rResult : ReplicatedEvalResult) : RApplyResult :=
  let r0 := hrZeroTrivial rResult
  let locked := r0.blockReads
  let lockEffs := if locked then [Effect.lockReadOnlyCmdMu] else []
  let r1 := {r0 with blockReads := false}
  let s := hrStatsAndIndexes env ⟨mu, lockEffs, r1⟩
  let shouldAssert := decide (s.r ≠ ReplicatedEvalResult.zero)
  let s := hrSplit env s
  let s := hrMerge s
  let s := hrFrozen s
  let s := hrDesc s
  let s := hrChangeReplicas env s
  let s := hrLease env s
  let s := hrTruncatedState s
  let s := hrGCThreshold s
  let s := hrTxnSpanGCThreshold s
  let s := hrComputeChecksum env s
  ⟨s.mu,
   s.effects ++ (if locked then [Effect.unlockReadOnlyCmdMu] else []),
   shouldAssert, s.r⟩

/-- Threaded state of `handleLocalEvalResult`. -/
structure LApplyState where
  mu : ReplicaMu
  effects : List Effect
  l : LocalEvalResult
deriving DecidableEq

/-- Lines 595-604: zero the fields no action is taken on here. -/
def hlZeroTrivial (l : LocalEvalResult) : LocalEvalResult :=
  {l with idKey := "", batch := false, endCmds := false, doneCh := false,
          ctx := false, err := none, proposedAtTicks := 0, reply := none}

/-- Lines 610-624: on the proposing store, hand intents to asynchronous
resolution; the field is cleared on every node. -/
def hlIntents (env : ReplicaEnv) (originReplica : ReplicaDescriptor)
    (s : LApplyState) : LApplyState :=
  let effs :=
    if originReplica.storeID = env.storeID then
      match s.l.intents with
      | some its => [Effect.resolveIntentsAsync its]
      | none => []
    else []
  ⟨s.mu, s.effects ++ effs, {s.l with intents := none}⟩

/-- Lines 630-635: install the new raft-log size estimate. -/
def hlRaftLogSize (s : LApplyState) : LApplyState :=
  match s.l.raftLogSize with
  | some sz =>
    ⟨{s.mu with raftLogSize := sz}, s.effects, {s.l with raftLogSize := none}⟩
  | none => s

/-- Lines 637-657: launch the async first-range gossip task (launch
failure is only logged). -/
def hlGossipFirstRange (s : LApplyState) : LApplyState :=
  if s.l.gossipFirstRange then
    ⟨s.mu, s.effects ++ [Effect.gossipFirstRangeTask],
     {s.l with gossipFirstRange := false}⟩
  else s

/-- Lines 659-662: enqueue a split candidate. -/
def hlMaybeAddToSplitQueue (env : ReplicaEnv) (s : LApplyState) : LApplyState :=
  if s.l.maybeAddToSplitQueue then
    ⟨s.mu, s.effects ++ [Effect.splitQueueMaybeAdd env.now],
     {s.l with maybeAddToSplitQueue := false}⟩
  else s

/-- Lines 664-667: run the cluster-config gossip check. -/
def hlMaybeGossipSystemConfig (s : LApplyState) : LApplyState :=
  if s.l.maybeGossipSystemConfig then
    ⟨s.mu, s.effects ++ [Effect.gossipSystemConfig],
     {s.l with maybeGossipSystemConfig := false}⟩
  else s

/-- Lines 669-680: on the proposing store, report lease metrics and gossip
node liveness; both fields are cleared on every node. -/
def hlProposerOnly (env : ReplicaEnv) (originReplica : ReplicaDescriptor)
    (s : LApplyState) : LApplyState :=
  let effs :=
    if originReplica.storeID = env.storeID then
      (match s.l.leaseMetricsResult with
       | some b => [Effect.leaseMetricsComplete b]
       | none => []) ++
      (match s.l.maybeGossipNodeLiveness with
       | some sp => [Effect.gossipNodeLiveness sp]
       | none => [])
    else []
  ⟨s.mu, s.effects ++ effs,
   {s.l with leaseMetricsResult := none, maybeGossipNodeLiveness := none}⟩

/-- Result of `handleLocalEvalResult`: updated state, effects, the
`shouldAssert` return value (line 628), and the record as it stands at the
final completeness assertion (lines 682-684). -/
structure LApplyResult where
  mu : ReplicaMu
  effects : List Effect
  shouldAssert : Bool
  final : LocalEvalResult
deriving DecidableEq

/-- `handleLocalEvalResult` (lines 589-687). -/
def handleLocalEvalResult (env : ReplicaEnv) (mu : ReplicaMu)
    (originReplica : ReplicaDescriptor) (lResult : LocalEvalResult) : LApplyResult :=
  let l0 := hlZeroTrivial lResult
  let s := hlIntents env originReplica ⟨mu, [], l0⟩
  let shouldAssert := decide (s.l ≠ LocalEvalResult.zero)
  let s := hlRaftLogSize s
  let s := hlGossipFirstRange s
  let s := hlMaybeAddToSplitQueue env s
  let s := hlMaybeGossipSystemConfig s
  let s := hlProposerOnly env originReplica s
  ⟨s.mu, s.effects, shouldAssert, s.l⟩

/-- `handleEvalResult` (lines 689-703): always run both applicators, then
assert in-memory versus on-disk state if either asked for it. -/
def handleEvalResult (env : ReplicaEnv) (mu : ReplicaMu)
    (originReplica : ReplicaDescriptor) (lResult : LocalEvalResult)
    (rResult : ReplicatedEvalResult) : ReplicaMu × List Effect :=
  let rRes := handleReplicatedEvalResult env mu rResult
  let lRes := handleLocalEvalResult env rRes.mu originReplica lResult
  let shouldAssert := rRes.shouldAssert || lRes.shouldAssert
  (lRes.mu,
   rRes.effects ++ lRes.effects ++
     (if shouldAssert then [Effect.assertState] else []))

/-- The timestamp-cache operations among the effects. -/
def Effect.isTsCacheOp : Effect → Bool
  | .setTsCacheLowWater _ => true
  | .clearTsCache _ => true
  | _ => false

/-- C5: when the lease changes hands (previous holder store differs from
new holder store), the new holder sets the timestamp-cache low-water mark
to the new lease's start time (not the previous lease's expiration), and a
non-holder clears the timestamp cache entirely. -/
theorem leaseHandoffTimestampCache (env : ReplicaEnv) (newLease prevLease : Lease)
    (replicaID : Nat)
    (hchange : prevLease.replica.storeID ≠ newLease.replica.storeID) :
    (newLease.replica.replicaID = replicaID →
      (leasePostApply env newLease replicaID prevLease).filter Effect.isTsCacheOp =
        [Effect.setTsCacheLowWater newLease.start]) ∧
    (newLease.replica.replicaID ≠ replicaID →
      (leasePostApply env newLease replicaID prevLease).filter Effect.isTsCacheOp =
        [Effect.clearTsCache env.now]) := by
  constructor <;> intro hid <;>
    simp only [leasePostApply] <;> split_ifs <;>
      simp_all [Effect.isTsCacheOp, List.filter_append]

/-- Witness for C5 at a concrete input (a handoff to self; the non-holder
direction of the conjunction holds vacuously there). -/
theorem leaseHandoffTimestampCacheWitness :
    ((⟨⟨2, 3, 4⟩, 0, 5⟩ : Lease).replica.storeID ≠
        (⟨⟨1, 7, 9⟩, 10, 20⟩ : Lease).replica.storeID) ∧
    (((⟨⟨1, 7, 9⟩, 10, 20⟩ : Lease).replica.replicaID = 9 →
      (leasePostApply ⟨15, 7, 1, false, false, 64, true⟩ ⟨⟨1, 7, 9⟩, 10, 20⟩ 9
          ⟨⟨2, 3, 4⟩, 0, 5⟩).filter Effect.isTsCacheOp =
        [Effect.setTsCacheLowWater (⟨⟨1, 7, 9⟩, 10, 20⟩ : Lease).start]) ∧
    ((⟨⟨1, 7, 9⟩, 10, 20⟩ : Lease).replica.replicaID ≠ 9 →
      (leasePostApply ⟨15, 7, 1, false, false, 64, true⟩ ⟨⟨1, 7, 9⟩, 10, 20⟩ 9
          ⟨⟨2, 3, 4⟩, 0, 5⟩).filter Effect.isTsCacheOp =
        [Effect.clearTsCache (15 : Nat)])) :=
  ⟨by decide,
   leaseHandoffTimestampCache ⟨15, 7, 1, false, false, 64, true⟩
     ⟨⟨1, 7, 9⟩, 10, 20⟩ ⟨⟨2, 3, 4⟩, 0, 5⟩ 9 (by decide)⟩

lemma chkLookup_chkInsert_self (m : List (Nat × ReplicaChecksum)) (id : Nat)
    (v : ReplicaChecksum) : chkLookup (chkInsert m id v) id = some v := by
  simp [chkInsert, chkLookup]

/-- C7: a `computeChecksumPostApply` call that finds the entry for the id
already started returns immediately — no GC, no snapshot, no computation
launch, state unchanged; a call that finds an existing not-yet-started
entry proceeds with exactly that entry's notify signal, leaving the entry
started and carrying the shared notify, so all requesters for the id share
the single computation. -/
theorem checksumRequestDeduplicates (env : ReplicaEnv) (mu : ReplicaMu)
    (args : ComputeChecksumRequest) (c : ReplicaChecksum)
    (hc : chkLookup mu.checksums args.checksumID = some c) :
    (c.started = true → computeChecksumPostApply env mu args = (mu, [])) ∧
    (c.started = false →
      computeChecksumPostApply env mu args =
        computeChecksumProceed env mu args c.notify ∧
      chkLookup (computeChecksumPostApply env mu args).1.checksums args.checksumID =
        some ⟨true, c.notify, 0, none⟩) := by
  constructor <;> intro hst
  · simp [computeChecksumPostApply, hc, hst]
  · have hproc : computeChecksumPostApply env mu args =
        computeChecksumProceed env mu args c.notify := by
      simp [computeChecksumPostApply, hc, hst]
    refine ⟨hproc, ?_⟩
    rw [hproc]
    simp [computeChecksumProceed, chkLookup_chkInsert_self]

/-- Concrete checksum table for the C7 witness: id 4 has a waiting,
not-yet-started entry with notify channel 11. -/
def c7Mu : ReplicaMu :=
  ⟨ReplicaState.zero, 0, 1, [(4, ⟨false, 11, 0, none⟩)], 99⟩

/-- Witness for C7 at a concrete input (the not-yet-started case; the
already-started direction holds vacuously there). -/
theorem checksumRequestDeduplicatesWitness :
    chkLookup c7Mu.checksums (4 : Nat) = some ⟨false, 11, 0, none⟩ ∧
    (((⟨false, 11, 0, none⟩ : ReplicaChecksum).started = true →
        computeChecksumPostApply ⟨10, 7, 1, false, false, 64, true⟩ c7Mu ⟨4, false⟩ =
          (c7Mu, [])) ∧
     ((⟨false, 11, 0, none⟩ : ReplicaChecksum).started = false →
        computeChecksumPostApply ⟨10, 7, 1, false, false, 64, true⟩ c7Mu ⟨4, false⟩ =
          computeChecksumProceed ⟨10, 7, 1, false, false, 64, true⟩ c7Mu ⟨4, false⟩ 11 ∧
        chkLookup (computeChecksumPostApply ⟨10, 7, 1, false, false, 64, true⟩ c7Mu
            ⟨4, false⟩).1.checksums (4 : Nat) = some ⟨true, 11, 0, none⟩)) :=
  ⟨by decide,
   checksumRequestDeduplicates ⟨10, 7, 1, false, false, 64, true⟩ c7Mu ⟨4, false⟩
     ⟨false, 11, 0, none⟩ (by decide)⟩

lemma chkLookup_eq_none_iff (m : List (Nat × ReplicaChecksum)) (id : Nat) :
    chkLookup m id = none ↔ id ∉ m.map Prod.fst := by
  induction m with
  | nil => simp [chkLookup]
  | cons kv rest ih =>
    obtain ⟨k, v⟩ := kv
    by_cases h : k = id
    · subst h
      simp [chkLookup]
    · simp [chkLookup, h, Ne.symm h, ih]

lemma not_mem_keys_filter (m : List (Nat × ReplicaChecksum))
    (f : Nat × ReplicaChecksum → Bool) (id : Nat)
    (h : id ∉ m.map Prod.fst) : id ∉ (m.filter f).map Prod.fst := by
  intro hmem
  rcases List.mem_map.mp hmem with ⟨kv, hkv, rfl⟩
  exact h (List.mem_map.mpr ⟨kv, List.mem_of_mem_filter hkv, rfl⟩)

lemma chkLookup_gc_removed (now : Nat) (m : List (Nat × ReplicaChecksum))
    (id : Nat) (c : ReplicaChecksum)
    (hnd : (m.map Prod.fst).Nodup) (h : chkLookup m id = some c)
    (h1 : c.gcTimestamp ≠ 0) (h2 : c.gcTimestamp < now) :
    chkLookup (gcOldChecksumEntriesLocked now m) id = none := by
  induction m with
  | nil => simp [chkLookup] at h
  | cons kv rest ih =>
    obtain ⟨k, v⟩ := kv
    rw [List.map_cons, List.nodup_cons] at hnd
    by_cases hk : k = id
    · subst hk
      rw [chkLookup, if_pos rfl] at h
      injection h with h
      subst h
      simp only [gcOldChecksumEntriesLocked, List.filter_cons]
      rw [if_neg (by simp [h1, h2])]
      exact (chkLookup_eq_none_iff _ _).mpr (not_mem_keys_filter _ _ _ hnd.1)
    · have h' : chkLookup rest id = some c := by
        rw [chkLookup, if_neg hk] at h
        exact h
      have hrest := ih hnd.2 h'
      simp only [gcOldChecksumEntriesLocked, List.filter_cons] at hrest ⊢
      split
      · rw [chkLookup, if_neg hk]
        exact hrest
      · exact hrest

lemma chkLookup_proceed_other (env : ReplicaEnv) (mu : ReplicaMu)
    (args : ComputeChecksumRequest) (notify id : Nat)
    (hid : id ≠ args.checksumID)
    (hnone : chkLookup (gcOldChecksumEntriesLocked env.now mu.checksums) id = none) :
    chkLookup (computeChecksumProceed env mu args notify).1.checksums id = none := by
  simp only [computeChecksumProceed, chkInsert]
  rw [chkLookup, if_neg (Ne.symm hid)]
  exact (chkLookup_eq_none_iff _ _).mpr
    (not_mem_keys_filter _ _ _ ((chkLookup_eq_none_iff _ _).mp hnone))

/-- Concrete checksum table for the C8 counterexample: id 1 is already
started, id 2 is done with an elapsed gc deadline. -/
def c8Mu : ReplicaMu :=
  ⟨ReplicaState.zero, 0, 1, [(1, ⟨true, 0, 0, none⟩), (2, ⟨true, 0, 5, some 9⟩)], 0⟩

/-- The environment for the C8 counterexample: the clock is past id 2's
gc deadline. -/
def c8Env : ReplicaEnv := ⟨10, 7, 1, false, false, 64, true⟩

/-- Counterexample for C8 as stated: id 2's entry has a set, elapsed gc
deadline, yet a `computeChecksumPostApply` call for id 1 — whose entry is
already started — returns before the GC sweep, leaving the expired entry
in the table. -/
theorem checksumLazyGCCounterexample :
    chkLookup c8Mu.checksums 2 = some ⟨true, 0, 5, some 9⟩ ∧
    ((5 : Nat) ≠ 0 ∧ (5 : Nat) < c8Env.now) ∧
    computeChecksumPostApply c8Env c8Mu ⟨1, false⟩ = (c8Mu, []) ∧
    chkLookup (computeChecksumPostApply c8Env c8Mu ⟨1, false⟩).1.checksums 2 =
      some ⟨true, 0, 5, some 9⟩ := by
  decide

/-- C8 (amended): an entry whose gc deadline is set and has elapsed is
removed from the checksum table by the next `computeChecksumPostApply`
call that proceeds to a computation — one whose own id has no entry or a
not-yet-started entry; a call that finds its id already started returns
before the GC sweep. (The proceeding call's own id is re-created as a
fresh started entry, so removal is claimed for the other ids.) -/
theorem checksumLazyGCAmended (env : ReplicaEnv) (mu : ReplicaMu)
    (args : ComputeChecksumRequest) (id : Nat) (c : ReplicaChecksum)
    (hnd : (mu.checksums.map Prod.fst).Nodup)
    (hproceed : chkLookup mu.checksums args.checksumID = none ∨
      ∃ c0, chkLookup mu.checksums args.checksumID = some c0 ∧ c0.started = false)
    (hid : id ≠ args.checksumID)
    (hgc : chkLookup mu.checksums id = some c)
    (hset : c.gcTimestamp ≠ 0) (helapsed : c.gcTimestamp < env.now) :
    chkLookup (computeChecksumPostApply env mu args).1.checksums id = none := by
  have hnone : chkLookup (gcOldChecksumEntriesLocked env.now mu.checksums) id = none :=
    chkLookup_gc_removed env.now mu.checksums id c hnd hgc hset helapsed
  rcases hproceed with h | ⟨c0, h, hst⟩
  · rw [show computeChecksumPostApply env mu args =
        computeChecksumProceed env {mu with nextNotify := mu.nextNotify + 1} args
          mu.nextNotify by simp [computeChecksumPostApply, h]]
    exact chkLookup_proceed_other env _ args _ id hid hnone
  · rw [show computeChecksumPostApply env mu args =
        computeChecksumProceed env mu args c0.notify by
      simp [computeChecksumPostApply, h, hst]]
    exact chkLookup_proceed_other env mu args c0.notify id hid hnone

/-- Concrete checksum table for the amended C8 witness: id 1 is waiting
(not yet started), id 2 is done with an elapsed gc deadline. -/
def c8WMu : ReplicaMu :=
  ⟨ReplicaState.zero, 0, 1, [(1, ⟨false, 3, 0, none⟩), (2, ⟨true, 0, 5, some 9⟩)], 0⟩

/-- Witness for the amended C8 at a concrete input. -/
theorem checksumLazyGCAmendedWitness :
    ((c8WMu.checksums.map Prod.fst).Nodup ∧
      (2 : Nat) ≠ (1 : Nat) ∧
      chkLookup c8WMu.checksums 2 = some ⟨true, 0, 5, some 9⟩ ∧
      (⟨true, 0, 5, some 9⟩ : ReplicaChecksum).gcTimestamp ≠ 0 ∧
      (⟨true, 0, 5, some 9⟩ : ReplicaChecksum).gcTimestamp < c8Env.now) ∧
    chkLookup (computeChecksumPostApply c8Env c8WMu ⟨1, false⟩).1.checksums 2 = none :=
  ⟨⟨by decide, by decide, by decide, by decide, by decide⟩,
   checksumLazyGCAmended c8Env c8WMu ⟨1, false⟩ 2 ⟨true, 0, 5, some 9⟩ (by decide)
     (Or.inr ⟨⟨false, 3, 0, none⟩, by decide, by decide⟩) (by decide) (by decide)
     (by decide) (by decide)⟩

lemma hrStatsAndIndexes_r (env : ReplicaEnv) (s : RApplyState) :
    (hrStatsAndIndexes env s).r =
      {s.r with delta := MVCCStats.zero, state.stats := MVCCStats.zero,
                state.leaseAppliedIndex := 0, state.raftAppliedIndex := 0} := rfl

lemma hrSplit_r (env : ReplicaEnv) (s : RApplyState) :
    (hrSplit env s).r = {s.r with split := none} := by
  rcases h : s.r.split with _ | v
  · simp only [hrSplit, h]
    rw [← h]
  · simp [hrSplit, h]

lemma hrMerge_r (s : RApplyState) : (hrMerge s).r = {s.r with merge := none} := by
  rcases h : s.r.merge with _ | v
  · simp only [hrMerge, h]
    rw [← h]
  · simp [hrMerge, h]

lemma hrFrozen_r (s : RApplyState) :
    (hrFrozen s).r = {s.r with state.frozen := .frozenUnspecified} := rfl

lemma hrDesc_r (s : RApplyState) : (hrDesc s).r = {s.r with state.desc := none} := by
  rcases h : s.r.state.desc with _ | v
  · simp only [hrDesc, h]
    rw [← h]
  · simp [hrDesc, h]

lemma hrChangeReplicas_r (env : ReplicaEnv) (s : RApplyState) :
    (hrChangeReplicas env s).r = {s.r with changeReplicas := none} := by
  rcases h : s.r.changeReplicas with _ | v
  · simp only [hrChangeReplicas, h]
    rw [← h]
  · simp [hrChangeReplicas, h]

lemma hrLease_r (env : ReplicaEnv) (s : RApplyState) :
    (hrLease env s).r = {s.r with state.lease := none} := by
  rcases h : s.r.state.lease with _ | v
  · simp only [hrLease, h]
    rw [← h]
  · simp [hrLease, h]

lemma hrTruncatedState_r (s : RApplyState) :
    (hrTruncatedState s).r = {s.r with state.truncatedState := none} := by
  rcases h : s.r.state.truncatedState with _ | v
  · simp only [hrTruncatedState, h]
    rw [← h]
  · simp [hrTruncatedState, h]

lemma hrGCThreshold_r (s : RApplyState) :
    (hrGCThreshold s).r = {s.r with state.gcThreshold := zeroTimestamp} := by
  unfold hrGCThreshold
  split_ifs with h
  · rfl
  · push_neg at h
    rw [← h]

lemma hrTxnSpanGCThreshold_r (s : RApplyState) :
    (hrTxnSpanGCThreshold s).r = {s.r with state.txnSpanGCThreshold := zeroTimestamp} := by
  unfold hrTxnSpanGCThreshold
  split_ifs with h
  · rfl
  · push_neg at h
    rw [← h]

lemma hrComputeChecksum_r (env : ReplicaEnv) (s : RApplyState) :
    (hrComputeChecksum env s).r = {s.r with computeChecksum := none} := by
  rcases h : s.r.computeChecksum with _ | v
  · simp only [hrComputeChecksum, h]
    rw [← h]
  · simp [hrComputeChecksum, h]

lemma handleReplicated_final_zero (env : ReplicaEnv) (mu : ReplicaMu)
    (rResult : ReplicatedEvalResult) :
    (handleReplicatedEvalResult env mu rResult).final = ReplicatedEvalResult.zero := by
  simp only [handleReplicatedEvalResult, hrComputeChecksum_r, hrTxnSpanGCThreshold_r,
    hrGCThreshold_r, hrTruncatedState_r, hrLease_r, hrChangeReplicas_r, hrDesc_r,
    hrFrozen_r, hrMerge_r, hrSplit_r, hrStatsAndIndexes_r, hrZeroTrivial]
  rfl

lemma hlIntents_l (env : ReplicaEnv) (o : ReplicaDescriptor) (s : LApplyState) :
    (hlIntents env o s).l = {s.l with intents := none} := rfl

lemma hlRaftLogSize_l (s : LApplyState) :
    (hlRaftLogSize s).l = {s.l with raftLogSize := none} := by
  rcases h : s.l.raftLogSize with _ | v
  · simp only [hlRaftLogSize, h]
    rw [← h]
  · simp [hlRaftLogSize, h]

lemma hlGossipFirstRange_l (s : LApplyState) :
    (hlGossipFirstRange s).l = {s.l with gossipFirstRange := false} := by
  unfold hlGossipFirstRange
  split_ifs with h
  · rfl
  · simp only [Bool.not_eq_true] at h
    rw [← h]

lemma hlMaybeAddToSplitQueue_l (env : ReplicaEnv) (s : LApplyState) :
    (hlMaybeAddToSplitQueue env s).l = {s.l with maybeAddToSplitQueue := false} := by
  unfold hlMaybeAddToSplitQueue
  split_ifs with h
  · rfl
  · simp only [Bool.not_eq_true] at h
    rw [← h]

lemma hlMaybeGossipSystemConfig_l (s : LApplyState) :
    (hlMaybeGossipSystemConfig s).l = {s.l with maybeGossipSystemConfig := false} := by
  unfold hlMaybeGossipSystemConfig
  split_ifs with h
  · rfl
  · simp only [Bool.not_eq_true] at h
    rw [← h]

lemma hlProposerOnly_l (env : ReplicaEnv) (o : ReplicaDescriptor) (s : LApplyState) :
    (hlProposerOnly env o s).l =
      {s.l with leaseMetricsResult := none, maybeGossipNodeLiveness := none} := rfl

lemma handleLocal_final_zero (env : ReplicaEnv) (mu : ReplicaMu)
    (o : ReplicaDescriptor) (lResult : LocalEvalResult) :
    (handleLocalEvalResult env mu o lResult).final = LocalEvalResult.zero := by
  simp only [handleLocalEvalResult, hlProposerOnly_l, hlMaybeGossipSystemConfig_l,
    hlMaybeAddToSplitQueue_l, hlGossipFirstRange_l, hlRaftLogSize_l, hlIntents_l,
    hlZeroTrivial]
  rfl

/-- C4: on every record, `handleReplicatedEvalResult` and
`handleLocalEvalResult` leave the record entirely zero-valued at the final
completeness assertion — every known field is consumed, so the fatal
unhandled-field check (which reports rather than silently drops any
leftover) can never fire for records built from the known fields. -/
theorem applicatorsConsumeEveryField (env : ReplicaEnv) (mu mu2 : ReplicaMu)
    (origin : ReplicaDescriptor) (rResult : ReplicatedEvalResult)
    (lResult : LocalEvalResult) :
    (handleReplicatedEvalResult env mu rResult).final = ReplicatedEvalResult.zero ∧
    (handleLocalEvalResult env mu2 origin lResult).final = LocalEvalResult.zero :=
  ⟨handleReplicated_final_zero env mu rResult,
   handleLocal_final_zero env mu2 origin lResult⟩

lemma hrMerge_effects_extend (s : RApplyState) :
    ∃ t, (hrMerge s).effects = s.effects ++ t := by
  rcases h : s.r.merge with _ | v
  · exact ⟨[], by simp [hrMerge, h]⟩
  · exact ⟨[Effect.mergeRange v.leftDesc.endKey v.rightDesc.rangeID],
      by simp [hrMerge, h]⟩

lemma hrFrozen_effects_extend (s : RApplyState) :
    ∃ t, (hrFrozen s).effects = s.effects ++ t :=
  ⟨[], by simp [hrFrozen]⟩

lemma hrDesc_effects_extend (s : RApplyState) :
    ∃ t, (hrDesc s).effects = s.effects ++ t := by
  rcases h : s.r.state.desc with _ | v
  · exact ⟨[], by simp [hrDesc, h]⟩
  · exact ⟨[Effect.setDescPersist v], by simp [hrDesc, h]⟩

lemma hrChangeReplicas_effects_extend (env : ReplicaEnv) (s : RApplyState) :
    ∃ t, (hrChangeReplicas env s).effects = s.effects ++ t := by
  rcases h : s.r.changeReplicas with _ | v
  · exact ⟨[], by simp [hrChangeReplicas, h]⟩
  · exact ⟨if v.changeType = .removeReplica ∧ env.storeID = v.replica.storeID then
        [Effect.replicaGCQueueAdd] else [],
      by simp [hrChangeReplicas, h]⟩

lemma hrLease_effects_extend (env : ReplicaEnv) (s : RApplyState) :
    ∃ t, (hrLease env s).effects = s.effects ++ t := by
  rcases h : s.r.state.lease with _ | v
  · exact ⟨[], by simp [hrLease, h]⟩
  · exact ⟨leasePostApply env v s.mu.replicaID ((s.mu.state.lease).getD ⟨⟨0, 0, 0⟩, 0, 0⟩),
      by simp [hrLease, h]⟩

lemma hrTruncatedState_effects_extend (s : RApplyState) :
    ∃ t, (hrTruncatedState s).effects = s.effects ++ t := by
  rcases h : s.r.state.truncatedState with _ | v
  · exact ⟨[], by simp [hrTruncatedState, h]⟩
  · exact ⟨[Effect.clearRaftEntryCache (v.index + 1)], by simp [hrTruncatedState, h]⟩

lemma hrGCThreshold_effects_extend (s : RApplyState) :
    ∃ t, (hrGCThreshold s).effects = s.effects ++ t := by
  unfold hrGCThreshold
  split_ifs
  · exact ⟨[], by simp⟩
  · exact ⟨[], by simp⟩

lemma hrTxnSpanGCThreshold_effects_extend (s : RApplyState) :
    ∃ t, (hrTxnSpanGCThreshold s).effects = s.effects ++ t := by
  unfold hrTxnSpanGCThreshold
  split_ifs
  · exact ⟨[], by simp⟩
  · exact ⟨[], by simp⟩

lemma hrComputeChecksum_effects_extend (env : ReplicaEnv) (s : RApplyState) :
    ∃ t, (hrComputeChecksum env s).effects = s.effects ++ t := by
  rcases h : s.r.computeChecksum with _ | v
  · exact ⟨[], by simp [hrComputeChecksum, h]⟩
  · exact ⟨(computeChecksumPostApply env s.mu v).2, by simp [hrComputeChecksum, h]⟩

lemma handleReplicated_effects_eq (env : ReplicaEnv) (mu : ReplicaMu)
    (rResult : ReplicatedEvalResult) :
    (handleReplicatedEvalResult env mu rResult).effects =
      (hrComputeChecksum env (hrTxnSpanGCThreshold (hrGCThreshold (hrTruncatedState
        (hrLease env (hrChangeReplicas env (hrDesc (hrFrozen (hrMerge (hrSplit env
          (hrStatsAndIndexes env
            ⟨mu,
             if (hrZeroTrivial rResult).blockReads then [Effect.lockReadOnlyCmdMu] else [],
             {hrZeroTrivial rResult with blockReads := false}⟩))))))))))).effects ++
      (if (hrZeroTrivial rResult).blockReads then [Effect.unlockReadOnlyCmdMu] else []) :=
  rfl

/-- C6: when a record carries a split trigger, the applicator persists the
cumulative statistics to durable storage with the contains-estimates flag
forced false, and this write appears strictly before the split trigger in
the effect order. -/
theorem splitPersistsStatsBeforeTrigger (env : ReplicaEnv) (mu : ReplicaMu)
    (rResult : ReplicatedEvalResult) (sp : SplitInfo)
    (hsplit : rResult.split = some sp) :
    ∃ pre post st,
      (handleReplicatedEvalResult env mu rResult).effects =
        pre ++ Effect.persistStats env.rangeID st ::
          Effect.splitTriggerApply sp.rhsDelta sp.splitTrigger :: post ∧
      st.containsEstimates = false := by
  rw [handleReplicated_effects_eq]
  set s1 : RApplyState :=
    hrStatsAndIndexes env
      ⟨mu,
       if (hrZeroTrivial rResult).blockReads then [Effect.lockReadOnlyCmdMu] else [],
       {hrZeroTrivial rResult with blockReads := false}⟩ with hs1
  have h1 : s1.r.split = some sp := by
    rw [hs1, hrStatsAndIndexes_r]
    simp [hrZeroTrivial, hsplit]
  have h2 : (hrSplit env s1).effects =
      s1.effects ++
        [Effect.persistStats env.rangeID
           {s1.mu.state.stats with containsEstimates := false},
         Effect.splitTriggerApply sp.rhsDelta sp.splitTrigger] := by
    simp [hrSplit, h1]
  obtain ⟨t3, e3⟩ := hrMerge_effects_extend (hrSplit env s1)
  obtain ⟨t4, e4⟩ := hrFrozen_effects_extend (hrMerge (hrSplit env s1))
  obtain ⟨t5, e5⟩ := hrDesc_effects_extend (hrFrozen (hrMerge (hrSplit env s1)))
  obtain ⟨t6, e6⟩ :=
    hrChangeReplicas_effects_extend env (hrDesc (hrFrozen (hrMerge (hrSplit env s1))))
  obtain ⟨t7, e7⟩ :=
    hrLease_effects_extend env
      (hrChangeReplicas env (hrDesc (hrFrozen (hrMerge (hrSplit env s1)))))
  obtain ⟨t8, e8⟩ :=
    hrTruncatedState_effects_extend
      (hrLease env (hrChangeReplicas env (hrDesc (hrFrozen (hrMerge (hrSplit env s1))))))
  obtain ⟨t9, e9⟩ :=
    hrGCThreshold_effects_extend
      (hrTruncatedState (hrLease env (hrChangeReplicas env (hrDesc (hrFrozen
        (hrMerge (hrSplit env s1)))))))
  obtain ⟨t10, e10⟩ :=
    hrTxnSpanGCThreshold_effects_extend
      (hrGCThreshold (hrTruncatedState (hrLease env (hrChangeReplicas env (hrDesc
        (hrFrozen (hrMerge (hrSplit env s1))))))))
  obtain ⟨t11, e11⟩ :=
    hrComputeChecksum_effects_extend env
      (hrTxnSpanGCThreshold (hrGCThreshold (hrTruncatedState (hrLease env
        (hrChangeReplicas env (hrDesc (hrFrozen (hrMerge (hrSplit env s1)))))))))
  refine ⟨s1.effects,
    t3 ++ t4 ++ t5 ++ t6 ++ t7 ++ t8 ++ t9 ++ t10 ++ t11 ++
      (if (hrZeroTrivial rResult).blockReads then [Effect.unlockReadOnlyCmdMu] else []),
    {s1.mu.state.stats with containsEstimates := false}, ?_, rfl⟩
  rw [e11, e10, e9, e8, e7, e6, e5, e4, e3, h2]
  simp [List.append_assoc]

/-- Concrete record for the C6 witness: a split trigger over estimated
statistics. -/
def c6R : ReplicatedEvalResult :=
  {ReplicatedEvalResult.zero with split := some ⟨⟨7, true⟩, 42⟩}

/-- Concrete replica state for the C6 witness: cumulative statistics with
the contains-estimates flag currently set. -/
def c6Mu : ReplicaMu :=
  ⟨{ReplicaState.zero with stats := ⟨100, true⟩}, 0, 1, [], 0⟩

/-- Witness for C6 at a concrete input. -/
theorem splitPersistsStatsBeforeTriggerWitness :
    c6R.split = some ⟨⟨7, true⟩, 42⟩ ∧
    ∃ pre post st,
      (handleReplicatedEvalResult ⟨10, 7, 5, false, false, 64, true⟩ c6Mu c6R).effects =
        pre ++ Effect.persistStats 5 st ::
          Effect.splitTriggerApply (⟨7, true⟩ : MVCCStats) 42 :: post ∧
      st.containsEstimates = false :=
  ⟨by decide,
   splitPersistsStatsBeforeTrigger ⟨10, 7, 5, false, false, 64, true⟩ c6Mu c6R
     ⟨⟨7, true⟩, 42⟩ (by decide)⟩

lemma leasePostApply_no_assert (env : ReplicaEnv) (nl : Lease) (rid : Nat) (pl : Lease) :
    Effect.assertState ∉ leasePostApply env nl rid pl := by
  unfold leasePostApply
  split_ifs <;> simp

lemma computeChecksumPostApply_no_assert (env : ReplicaEnv) (mu : ReplicaMu)
    (args : ComputeChecksumRequest) :
    Effect.assertState ∉ (computeChecksumPostApply env mu args).2 := by
  unfold computeChecksumPostApply computeChecksumProceed
  split <;> split_ifs <;> simp

lemma hrStatsAndIndexes_no_assert (env : ReplicaEnv) (s : RApplyState)
    (h : Effect.assertState ∉ s.effects) :
    Effect.assertState ∉ (hrStatsAndIndexes env s).effects := by
  unfold hrStatsAndIndexes
  split_ifs <;> simp_all

lemma hrSplit_no_assert (env : ReplicaEnv) (s : RApplyState)
    (h : Effect.assertState ∉ s.effects) :
    Effect.assertState ∉ (hrSplit env s).effects := by
  rcases hv : s.r.split <;> simp_all [hrSplit]

lemma hrMerge_no_assert (s : RApplyState) (h : Effect.assertState ∉ s.effects) :
    Effect.assertState ∉ (hrMerge s).effects := by
  rcases hv : s.r.merge <;> simp_all [hrMerge]

lemma hrFrozen_no_assert (s : RApplyState) (h : Effect.assertState ∉ s.effects) :
    Effect.assertState ∉ (hrFrozen s).effects := by
  simp_all [hrFrozen]

lemma hrDesc_no_assert (s : RApplyState) (h : Effect.assertState ∉ s.effects) :
    Effect.assertState ∉ (hrDesc s).effects := by
  rcases hv : s.r.state.desc <;> simp_all [hrDesc]

lemma hrChangeReplicas_no_assert (env : ReplicaEnv) (s : RApplyState)
    (h : Effect.assertState ∉ s.effects) :
    Effect.assertState ∉ (hrChangeReplicas env s).effects := by
  rcases hv : s.r.changeReplicas with _ | v
  · simp_all [hrChangeReplicas]
  · simp only [hrChangeReplicas, hv]
    split_ifs <;> simp_all

lemma hrLease_no_assert (env : ReplicaEnv) (s : RApplyState)
    (h : Effect.assertState ∉ s.effects) :
    Effect.assertState ∉ (hrLease env s).effects := by
  rcases hv : s.r.state.lease with _ | v
  · simp_all [hrLease]
  · simp only [hrLease, hv, List.mem_append, not_or]
    exact ⟨h, leasePostApply_no_assert env v s.mu.replicaID _⟩

lemma hrTruncatedState_no_assert (s : RApplyState)
    (h : Effect.assertState ∉ s.effects) :
    Effect.assertState ∉ (hrTruncatedState s).effects := by
  rcases hv : s.r.state.truncatedState <;> simp_all [hrTruncatedState]

lemma hrGCThreshold_no_assert (s : RApplyState) (h : Effect.assertState ∉ s.effects) :
    Effect.assertState ∉ (hrGCThreshold s).effects := by
  unfold hrGCThreshold
  split_ifs <;> simp_all

lemma hrTxnSpanGCThreshold_no_assert (s : RApplyState)
    (h : Effect.assertState ∉ s.effects) :
    Effect.assertState ∉ (hrTxnSpanGCThreshold s).effects := by
  unfold hrTxnSpanGCThreshold
  split_ifs <;> simp_all

lemma hrComputeChecksum_no_assert (env : ReplicaEnv) (s : RApplyState)
    (h : Effect.assertState ∉ s.effects) :
    Effect.assertState ∉ (hrComputeChecksum env s).effects := by
  rcases hv : s.r.computeChecksum with _ | v
  · simp_all [hrComputeChecksum]
  · simp only [hrComputeChecksum, hv, List.mem_append, not_or]
    exact ⟨h, computeChecksumPostApply_no_assert env s.mu v⟩

lemma handleReplicated_no_assert (env : ReplicaEnv) (mu : ReplicaMu)
    (rResult : ReplicatedEvalResult) :
    Effect.assertState ∉ (handleReplicatedEvalResult env mu rResult).effects := by
  rw [handleReplicated_effects_eq]
  simp only [List.mem_append, not_or]
  refine ⟨?_, ?_⟩
  · apply hrComputeChecksum_no_assert
    apply hrTxnSpanGCThreshold_no_assert
    apply hrGCThreshold_no_assert
    apply hrTruncatedState_no_assert
    apply hrLease_no_assert
    apply hrChangeReplicas_no_assert
    apply hrDesc_no_assert
    apply hrFrozen_no_assert
    apply hrMerge_no_assert
    apply hrSplit_no_assert
    apply hrStatsAndIndexes_no_assert
    show Effect.assertState ∉
      (if (hrZeroTrivial rResult).blockReads then [Effect.lockReadOnlyCmdMu] else [])
    split_ifs <;> simp
  · split_ifs <;> simp

lemma hlIntents_no_assert (env : ReplicaEnv) (o : ReplicaDescriptor) (s : LApplyState)
    (h : Effect.assertState ∉ s.effects) :
    Effect.assertState ∉ (hlIntents env o s).effects := by
  by_cases ho : o.storeID = env.storeID <;> rcases hi : s.l.intents <;>
    simp_all [hlIntents]

lemma hlRaftLogSize_no_assert (s : LApplyState) (h : Effect.assertState ∉ s.effects) :
    Effect.assertState ∉ (hlRaftLogSize s).effects := by
  rcases hv : s.l.raftLogSize <;> simp_all [hlRaftLogSize]

lemma hlGossipFirstRange_no_assert (s : LApplyState)
    (h : Effect.assertState ∉ s.effects) :
    Effect.assertState ∉ (hlGossipFirstRange s).effects := by
  unfold hlGossipFirstRange
  split_ifs <;> simp_all

lemma hlMaybeAddToSplitQueue_no_assert (env : ReplicaEnv) (s : LApplyState)
    (h : Effect.assertState ∉ s.effects) :
    Effect.assertState ∉ (hlMaybeAddToSplitQueue env s).effects := by
  unfold hlMaybeAddToSplitQueue
  split_ifs <;> simp_all

lemma hlMaybeGossipSystemConfig_no_assert (s : LApplyState)
    (h : Effect.assertState ∉ s.effects) :
    Effect.assertState ∉ (hlMaybeGossipSystemConfig s).effects := by
  unfold hlMaybeGossipSystemConfig
  split_ifs <;> simp_all

lemma hlProposerOnly_no_assert (env : ReplicaEnv) (o : ReplicaDescriptor)
    (s : LApplyState) (h : Effect.assertState ∉ s.effects) :
    Effect.assertState ∉ (hlProposerOnly env o s).effects := by
  by_cases ho : o.storeID = env.storeID <;>
    rcases h1 : s.l.leaseMetricsResult <;> rcases h2 : s.l.maybeGossipNodeLiveness <;>
      simp_all [hlProposerOnly]

lemma handleLocal_no_assert (env : ReplicaEnv) (mu : ReplicaMu)
    (o : ReplicaDescriptor) (lResult : LocalEvalResult) :
    Effect.assertState ∉ (handleLocalEvalResult env mu o lResult).effects := by
  show Effect.assertState ∉
    (hlProposerOnly env o (hlMaybeGossipSystemConfig (hlMaybeAddToSplitQueue env
      (hlGossipFirstRange (hlRaftLogSize
        (hlIntents env o ⟨mu, [], hlZeroTrivial lResult⟩)))))).effects
  apply hlProposerOnly_no_assert
  apply hlMaybeGossipSystemConfig_no_assert
  apply hlMaybeAddToSplitQueue_no_assert
  apply hlGossipFirstRange_no_assert
  apply hlRaftLogSize_no_assert
  apply hlIntents_no_assert
  simp

/-- C9: the apply coordinator always runs both applicators — the final
effect stream is the replicated applicator's effects followed by the local
applicator's effects — and it appends the full in-memory-versus-durable
consistency assertion if and only if at least one of the two returned
`shouldAssert`. -/
theorem coordinatorRunsBothAndAsserts (env : ReplicaEnv) (mu : ReplicaMu)
    (origin : ReplicaDescriptor) (lResult : LocalEvalResult)
    (rResult : ReplicatedEvalResult) :
    (handleEvalResult env mu origin lResult rResult).2 =
      (handleReplicatedEvalResult env mu rResult).effects ++
        (handleLocalEvalResult env (handleReplicatedEvalResult env mu rResult).mu
          origin lResult).effects ++
        (if (handleReplicatedEvalResult env mu rResult).shouldAssert ||
            (handleLocalEvalResult env (handleReplicatedEvalResult env mu rResult).mu
              origin lResult).shouldAssert then
          [Effect.assertState] else []) ∧
    (Effect.assertState ∈ (handleEvalResult env mu origin lResult rResult).2 ↔
      ((handleReplicatedEvalResult env mu rResult).shouldAssert = true ∨
       (handleLocalEvalResult env (handleReplicatedEvalResult env mu rResult).mu
         origin lResult).shouldAssert = true)) := by
  refine ⟨rfl, ?_⟩
  cases hr : (handleReplicatedEvalResult env mu rResult).shouldAssert <;>
    cases hl : (handleLocalEvalResult env (handleReplicatedEvalResult env mu rResult).mu
        origin lResult).shouldAssert <;>
      simp [handleEvalResult, hr, hl, List.mem_append,
        handleReplicated_no_assert, handleLocal_no_assert]

end Storage
